import Mathlib

/-!
Verification of the data-access resilience layer of the climate-economy
insight dashboard: a shallow embedding, in Lean 4, of the cache, retry,
subscription/alert and synthetic-fallback services
(`bigqueryService`, `errorService`, `realTimeService`, `vectorSearchService`),
together with theorems settling the specification claims about them.

Modelling conventions:
* JS `Map` objects are modelled as functions `String → Option α`
  (finite maps with wholesale replacement on `set`).
* JS numbers are modelled as rationals `ℚ` (the code performs only
  field arithmetic, comparisons and decimal rounding on them), except
  where the source computes with `Math.sin`/`Math.PI`, which is modelled
  over `ℝ`.
* `Math.random()` draws are modelled as explicit parameters
  (`r : Nat → ℚ`, one entry per draw site), constrained to `[0,1]`
  where a claim needs it.
* Timestamps are modelled as integers: `Date` values built as
  `new Date(y, m, 1)` become the month index `12*y + m` (order- and
  spacing-preserving for the monthly series the code builds), and
  epoch-millisecond values stay plain `Int`.
* `async` functions that can throw are modelled in `Except`; a JS
  `try/catch` becomes a `match` on the `Except` value.
-/

namespace ClimateCore

/-! ### JS primitives -/

/-- JS `Math.round(x)`: `⌊x + 0.5⌋` (round half up, also for negatives). -/
def jsRound (x : ℚ) : ℤ :=
  Int.floor (x + 1/2)

/-- The pervasive `Math.round(v * 100) / 100` two-decimal rounding. -/
def round2 (x : ℚ) : ℚ :=
  (jsRound (x * 100) : ℚ) / 100

/-- JS `Number(x.toFixed(d))` for `d = 2`: round half away from zero at two
decimals (the ES spec applies round-half-up to `|x|` and restores the sign). -/
def toFixed2 (x : ℚ) : ℚ :=
  if 0 ≤ x then (Int.floor (x * 100 + 1/2) : ℚ) / 100
  else -((Int.floor (-x * 100 + 1/2) : ℚ) / 100)

/-- JS `Number(x.toFixed(3))`. -/
def toFixed3 (x : ℚ) : ℚ :=
  if 0 ≤ x then (Int.floor (x * 1000 + 1/2) : ℚ) / 1000
  else -((Int.floor (-x * 1000 + 1/2) : ℚ) / 1000)

/-! ### Finite string-keyed maps (JS `Map`) -/

/-- Models `map.set(k, v)` — wholesale replacement of the entry. -/
def mset {α : Type} (m : String → Option α) (k : String) (v : α) :
    String → Option α :=
  fun x => if x = k then some v else m x

/-- Models `map.delete(k)`. -/
def mdel {α : Type} (m : String → Option α) (k : String) :
    String → Option α :=
  fun x => if x = k then none else m x

/-- The empty map (a fresh `new Map()`). -/
def memp {α : Type} : String → Option α := fun _ => none

/-! ### BigQueryService result cache (src part_004, lines 36–61) -/

/-- One entry of `BigQueryService.queryCache`: `{ result, timestamp }`. -/
structure CacheEntry (α : Type) where
  result : α
  timestamp : Int
deriving Repr, DecidableEq

/-- Models `private readonly CACHE_TTL = 300000; // 5 minutes` (milliseconds). -/
def CACHE_TTL : Int := 300000

/-- Models `BigQueryService.getCachedResult`: an entry is readable iff
`Date.now() - cached.timestamp < CACHE_TTL`; expired or missing entries
yield `null`. `now` is the `Date.now()` at the time of the `get`. -/
def getCachedResult {α : Type} (cache : String → Option (CacheEntry α))
    (key : String) (now : Int) : Option α :=
  match cache key with
  | some cached => if now - cached.timestamp < CACHE_TTL then some cached.result else none
  | none => none

/-- Models `BigQueryService.setCachedResult`: stores `{ result, timestamp: Date.now() }`,
replacing any previous entry wholesale. -/
def setCachedResult {α : Type} (cache : String → Option (CacheEntry α))
    (key : String) (result : α) (now : Int) : String → Option (CacheEntry α) :=
  mset cache key ⟨result, now⟩

/-! ### RealTimeService data model (src part_002) -/

/-- The `DataUpdate` record delivered to subscribers. -/
structure DataUpdate where
  timestamp : Int
  indicator : String
  region : String
  value : ℚ
  change : ℚ
  changePercent : ℚ
  source : String
  reliability : String
deriving Repr, DecidableEq

/-- An `AlertConfig` rule: `{ threshold, type, direction }`. -/
structure AlertConfig where
  threshold : ℚ
  type : String
  direction : String
deriving Repr, DecidableEq

/-- Topic key `` `${indicator}-${region}` ``. -/
def topicKey (indicator region : String) : String :=
  indicator ++ "-" ++ region

/-- Models `RealTimeService.checkAlerts` (and the guarded `triggerAlert` call):
returns whether the alert side effect fires for this update. -/
def checkAlerts (alerts : String → Option AlertConfig) (update : DataUpdate) :
    Bool :=
  match alerts (topicKey update.indicator update.region) with
  | none => false
  | some alertConfig =>
    let triggered :=
      if alertConfig.type = "absolute" then
        |update.change| ≥ alertConfig.threshold
      else
        |update.changePercent| ≥ alertConfig.threshold
    if triggered then
      let direction := if update.change > 0 then "increase" else "decrease"
      alertConfig.direction = "both" ∨ alertConfig.direction = direction
    else false

/-- Modelled from the spec (for comparison with `checkAlerts`): the claim's
reading of the evaluation rule — the threshold test on the configured kind,
and a direction test in which `both` always passes while
`increase`/`decrease` pass only if the *sign* of `change` matches
(`increase` ↔ `change > 0`, `decrease` ↔ `change < 0`). -/
def specAlertFires (alertConfig : AlertConfig) (update : DataUpdate) : Prop :=
  (if alertConfig.type = "absolute" then
      |update.change| ≥ alertConfig.threshold
    else
      |update.changePercent| ≥ alertConfig.threshold) ∧
  (alertConfig.direction = "both" ∨
    (alertConfig.direction = "increase" ∧ 0 < update.change) ∨
    (alertConfig.direction = "decrease" ∧ update.change < 0))

instance (c : AlertConfig) (u : DataUpdate) : Decidable (specAlertFires c u) := by
  unfold specAlertFires; infer_instance

/-! ### RealTimeService state machine (src part_002, lines 31–215)

The mutable fields of the `RealTimeService` class instance.  Listener
callbacks are identified by `Nat` tokens (two `subscribe` calls that pass
the same function reference yield two occurrences of the same token).
`fetchLog` records, in order, the topics for which `startPolling` issued
its immediate out-of-band `fetchLatestData` call. -/

structure RTState where
  subscribers : String → Option (List Nat)
  pollingIntervals : String → Option Nat
  alerts : String → Option AlertConfig
  lastValues : String → Option ℚ
  nextTimerId : Nat
  fetchLog : List String

/-- A freshly constructed service: all maps empty.  Browser interval ids
are positive, so timer ids start at 1. -/
def rtInitial : RTState :=
  { subscribers := memp, pollingIntervals := memp, alerts := memp
    lastValues := memp, nextTimerId := 1, fetchLog := [] }

/-- Models `RealTimeService.stopPolling`: clear and forget the timer for `key`,
a no-op when none exists. -/
def stopPolling (s : RTState) (key : String) : RTState :=
  match s.pollingIntervals key with
  | some _ => { s with pollingIntervals := mdel s.pollingIntervals key }
  | none => s

/-- Models `RealTimeService.startPolling`: clear any existing timer for the topic,
install a fresh interval timer, and issue one immediate `fetchLatestData`
(recorded in `fetchLog`). -/
def startPolling (s : RTState) (indicator region : String) : RTState :=
  let key := topicKey indicator region
  let s1 := stopPolling s key
  { s1 with
    pollingIntervals := mset s1.pollingIntervals key s1.nextTimerId
    nextTimerId := s1.nextTimerId + 1
    fetchLog := s1.fetchLog ++ [key] }

/-- Models `RealTimeService.subscribe`: on the first listener for a topic, create
the (empty) listener list and start polling; then append the callback. -/
def subscribeRT (s : RTState) (indicator region : String) (cb : Nat) : RTState :=
  let key := topicKey indicator region
  let s1 :=
    if (s.subscribers key).isSome then s
    else startPolling { s with subscribers := mset s.subscribers key [] } indicator region
  { s1 with
    subscribers := mset s1.subscribers key (((s1.subscribers key).getD []) ++ [cb]) }

/-- Remove the first occurrence of a value from a list (`indexOf`+`splice`). -/
def eraseFirst : List Nat → Nat → List Nat
  | [], _ => []
  | x :: xs, c => if x = c then xs else x :: eraseFirst xs c

/-- The unsubscribe closure returned by `RealTimeService.subscribe`: look up
the topic's callback list; if the captured callback occurs, splice out its
first occurrence, and if the list became empty stop polling and delete the
topic's subscriber entry; otherwise do nothing. -/
def unsubscribeRT (s : RTState) (key : String) (cb : Nat) : RTState :=
  match s.subscribers key with
  | none => s
  | some callbacks =>
    if cb ∈ callbacks then
      let callbacks' := eraseFirst callbacks cb
      if callbacks' = [] then
        let s1 := stopPolling s key
        { s1 with subscribers := mdel s1.subscribers key }
      else
        { s with subscribers := mset s.subscribers key callbacks' }
    else s

/-- The listener callbacks that `handleUpdate` invokes for a topic (it
iterates over `subscribers.get(key)`, isolating per-listener failures). -/
def deliveredCallbacks (s : RTState) (key : String) : List Nat :=
  (s.subscribers key).getD []

/-- Models `RealTimeService.setAlert`. -/
def setAlertRT (s : RTState) (indicator region : String) (config : AlertConfig) :
    RTState :=
  { s with alerts := mset s.alerts (topicKey indicator region) config }

/-! Per-indicator synthetic-data configuration of `RealTimeService`. -/

/-- Models `RealTimeService.getBaseValue` (the `|| 100` default also applies to a
stored falsy value, faithfully modelled in `fetchLatestData` below). -/
def rtGetBaseValue (indicator : String) : ℚ :=
  if indicator = "co2" then 415
  else if indicator = "avg_temperature" then 14.8
  else if indicator = "gdp" then 52000
  else if indicator = "renewable_adoption" then 28
  else 100

/-- Models `RealTimeService.getVolatility`. -/
def rtGetVolatility (indicator : String) : ℚ :=
  if indicator = "co2" then 0.002
  else if indicator = "avg_temperature" then 0.01
  else if indicator = "gdp" then 0.005
  else if indicator = "renewable_adoption" then 0.003
  else 0.005

/-- Models `RealTimeService.getTrend`. -/
def rtGetTrend (indicator : String) : ℚ :=
  if indicator = "co2" then 0.5
  else if indicator = "avg_temperature" then 0.3
  else if indicator = "gdp" then 0.2
  else if indicator = "renewable_adoption" then 1.0
  else 0

/-- Models `RealTimeService.getDataSource`. -/
def rtGetDataSource (indicator : String) : String :=
  if indicator = "co2" then "NOAA Global Monitoring Laboratory"
  else if indicator = "avg_temperature" then "NASA GISS Temperature Data"
  else if indicator = "gdp" then "World Bank Global Economic Data"
  else if indicator = "renewable_adoption" then "International Energy Agency"
  else "Real-time Data Feed"

/-- Models `RealTimeService.fetchLatestData`: the simulated remote fetch.  `rand`
is the `Math.random()` draw, `now` the current time.  `lastValues.get(key)
|| getBaseValue(indicator)` falls back to the base value also when the
stored value is `0` (JS falsiness), as modelled here.  Returns the produced
`DataUpdate` together with the updated `lastValues` map. -/
def fetchLatestData (s : RTState) (indicator region : String) (rand : ℚ)
    (now : Int) : DataUpdate × RTState :=
  let key := topicKey indicator region
  let lastValue :=
    match s.lastValues key with
    | some v => if v = 0 then rtGetBaseValue indicator else v
    | none => rtGetBaseValue indicator
  let volatility := rtGetVolatility indicator
  let trend := rtGetTrend indicator
  let randomChange := (rand - 0.5) * volatility
  let trendChange := trend * 0.001
  let newValue := lastValue + lastValue * (trendChange + randomChange)
  let change := newValue - lastValue
  let changePercent := change / lastValue * 100
  let update : DataUpdate :=
    { timestamp := now
      indicator := indicator
      region := region
      value := toFixed2 newValue
      change := toFixed3 change
      changePercent := toFixed2 changePercent
      source := rtGetDataSource indicator
      reliability := "high" }
  (update, { s with lastValues := mset s.lastValues key newValue })

/-- Modelled from the spec (for comparison with `fetchLatestData` and the
demo forecast): the claim's notion of a result being "distinguishable to
the caller via a source/reliability field marking it as synthetic or
degraded" — the reliability tier is degraded below `high`, or the source
label names the synthetic/fallback path. -/
def specMarkedSynthetic (u : DataUpdate) : Prop :=
  u.reliability ≠ "high" ∨ u.source = "synthetic" ∨ u.source = "fallback" ∨
    u.source = "demo"

instance (u : DataUpdate) : Decidable (specMarkedSynthetic u) := by
  unfold specMarkedSynthetic; infer_instance

/-! ### ErrorService retry policy (errorService.ts, lines 181–214) -/

/-- The fields of an `AppError` relevant to the claims (the remaining
fields — `userMessage`, `context` timestamps, etc. — are presentation
data derived from these). -/
structure AppError where
  message : String
  code : String
  severity : String
  category : String
  action : String
  recoverable : Bool
deriving Repr, DecidableEq

/-- The terminal error built on retry exhaustion:
`createError('Operation failed after N retries: msg', 'RETRY_EXHAUSTED',
HIGH, API, { action: operationId }, false)`. -/
def retryExhaustedError (retries : Nat) (lastMessage : String)
    (operationId : String) : AppError :=
  { message := "Operation failed after " ++ toString retries ++ " retries: "
      ++ lastMessage
    code := "RETRY_EXHAUSTED"
    severity := "high"
    category := "api"
    action := operationId
    recoverable := false }

/-- The per-operation-id retry counters (`ErrorService.retryCount`). -/
def RetryMap : Type := String → Option Nat

/-- Result of a completed `withRetry` call: the settled promise, the final
`retryCount` map, and the list of backoff delays that were awaited, in
order. -/
structure RetryOutcome (α : Type) where
  result : Except AppError α
  state : RetryMap
  delays : List ℚ

/-- Models `ErrorService.withRetry`, with the successive invocations of the
wrapped `operation` modelled as `ops : Nat → Except String α` (`ops k` is
the outcome of the `k`-th invocation; a thrown error carries its
`message`).  `retries` is the already-resolved attempt limit
(`maxRetries || this.config.maxRetries`), `retryDelay` the configured base
delay.  Each failure below the limit waits `retryDelay * 2 ^ current`,
bumps the counter and recurses; success and exhaustion both delete the
counter. -/
def withRetryAux {α : Type} (ops : Nat → Except String α) (retries : Nat)
    (retryDelay : ℚ) (operationId : String) (st : RetryMap) (k : Nat) :
    RetryOutcome α :=
  let currentRetryCount := (st operationId).getD 0
  match ops k with
  | .ok result => ⟨.ok result, mdel st operationId, []⟩
  | .error e =>
    if currentRetryCount < retries then
      let rec_ := withRetryAux ops retries retryDelay operationId
        (mset st operationId (currentRetryCount + 1)) (k + 1)
      ⟨rec_.result, rec_.state, retryDelay * 2 ^ currentRetryCount :: rec_.delays⟩
    else
      ⟨.error (retryExhaustedError retries e operationId), mdel st operationId, []⟩
termination_by retries + 1 - (st operationId).getD 0
decreasing_by
  have h : ∀ (m : String → Option Nat) (key : String) (v : Nat),
      mset m key v key = some v := fun m key v => by simp [mset]
  simp only [h, Option.getD_some]
  omega

/-- Models `maxRetries || this.config.maxRetries`: an omitted (or zero — JS
falsiness) per-call limit falls back to the configured one. -/
def resolveRetries (maxRetries : Option Nat) (configMaxRetries : Nat) : Nat :=
  match maxRetries with
  | some n => if n = 0 then configMaxRetries else n
  | none => configMaxRetries

/-! ### BigQueryService forecast pipeline (src part_004) -/

/-- A `ForecastRequest`. -/
structure ForecastRequest where
  indicator : String
  region : String
  timeRange : String
  mode : String
deriving Repr, DecidableEq

/-- A calendar month used for `new Date(y, m, 1)` construction; ordered by
its month index `12 * year + month` (JS normalises out-of-range months the
same way). -/
structure DateYM where
  year : Int
  month : Int
deriving Repr, DecidableEq

/-- The month index of a `DateYM`. -/
def monthIdx (d : DateYM) : Int := 12 * d.year + d.month

/-- One point of a `ForecastSeries`: `{ ts, value, confidence_low,
confidence_high }` (`ts` is the month index of the point's date). -/
structure ForecastPoint where
  ts : Int
  value : ℚ
  confidence_low : ℚ
  confidence_high : ℚ
deriving Repr, DecidableEq

/-- The forecast summary block. -/
structure ForecastSummary where
  trend : String
  impact : String
  recommendation : String
  accuracy_score : ℚ
deriving Repr, DecidableEq

/-- A complete forecast result (`{ forecast, summary }`). -/
structure Forecast where
  forecast : List ForecastPoint
  summary : ForecastSummary
deriving Repr, DecidableEq

/-- Models `BigQueryService.getTimeHorizon`: `{ '1y': 12, '5y': 60, '10y': 120 }`
with default `120`. -/
def getTimeHorizon (timeRange : String) : Nat :=
  if timeRange = "1y" then 12
  else if timeRange = "5y" then 60
  else if timeRange = "10y" then 120
  else 120

/-- Models `BigQueryService.getBaseValue`. -/
def bqGetBaseValue (indicator : String) : ℚ :=
  if indicator = "co2" then 410
  else if indicator = "avg_temperature" then 14.5
  else if indicator = "gdp" then 55000
  else if indicator = "renewable_adoption" then 25
  else 100

/-- Models `BigQueryService.getTrendMultiplier`. -/
def bqGetTrendMultiplier (indicator : String) : ℚ :=
  if indicator = "co2" then 2.5
  else if indicator = "avg_temperature" then 0.15
  else if indicator = "gdp" then 1200
  else if indicator = "renewable_adoption" then 2.0
  else 1

/-- Models `BigQueryService.getImpactMessage`. -/
def getImpactMessage (indicator region : String) : String :=
  "Analysis for " ++ region ++ " shows significant " ++ indicator ++
    " pattern changes requiring strategic response."

/-- Models `BigQueryService.getRecommendation`. -/
def getRecommendation (indicator : String) : String :=
  if indicator = "co2" then
    "Implement carbon pricing and invest in clean technology"
  else if indicator = "avg_temperature" then
    "Enhance climate adaptation infrastructure"
  else if indicator = "gdp" then
    "Develop green economic transition strategies"
  else if indicator = "renewable_adoption" then
    "Accelerate renewable energy deployment"
  else "Develop comprehensive climate strategy"

/-- Models `BigQueryService.generateDemoForecast`: the synthetic demo/fallback
generator.  `now` is the current calendar month, `r i` the `Math.random()`
draw for point `i`, `racc` the draw for the accuracy score.  Builds a past
window of `horizon` ascending months ending at the current month. -/
def generateDemoForecast (request : ForecastRequest) (now : DateYM)
    (r : Nat → ℚ) (racc : ℚ) : Forecast :=
  let horizon := getTimeHorizon request.timeRange
  let endIdx := monthIdx now
  let baseValue := bqGetBaseValue request.indicator
  let trendMul := bqGetTrendMultiplier request.indicator
  let forecast := (List.range horizon).map fun (i : Nat) =>
    let val := baseValue + i * trendMul + (r i - 0.5) * baseValue * 0.1
    { ts := endIdx - ((horizon : Int) - 1 - (i : Int))
      value := round2 val
      confidence_low := round2 (val * 0.9)
      confidence_high := round2 (val * 1.1) : ForecastPoint }
  let trendDirection :=
    if 1 < forecast.length ∧
        ((forecast.head?.map ForecastPoint.value).getD 0 ≤
          (forecast.getLast?.map ForecastPoint.value).getD 0) then
      "increasing"
    else "decreasing"
  { forecast := forecast
    summary :=
      { trend := trendDirection
        impact := getImpactMessage request.indicator request.region
        recommendation := getRecommendation request.indicator
        accuracy_score := 0.85 + racc * 0.1 } }

/-- One point of `BigQueryService.getHistoricalData`'s output. -/
structure HistPoint where
  ts : Int
  value : ℚ
deriving Repr, DecidableEq

/-- Models `BigQueryService.getHistoricalData`: `horizon` months of synthetic
history ending last month (`new Date(y, m - (horizon - i), 1)`), values
rounded to two decimals. -/
def getHistoricalData (request : ForecastRequest) (now : DateYM)
    (r : Nat → ℚ) : List HistPoint :=
  let horizon := getTimeHorizon request.timeRange
  let baseValue := bqGetBaseValue request.indicator
  let trendMul := bqGetTrendMultiplier request.indicator
  (List.range horizon).map fun (i : Nat) =>
    { ts := monthIdx now - ((horizon : Int) - (i : Int))
      value := round2 (baseValue + i * trendMul + (r i - 0.5) * baseValue * 0.1) }

/-! Remote result shapes.  A BigQuery response row is a dynamic object; the
fields the formatter probes are modelled as optional fields.  The legacy
`{ f: [{v}, {v}, {v}, {v}] }` shape is modelled by the parsed values of its
four cells; a cell that is missing (which in JS would make `parseFloat`
yield `NaN`) is modelled as absent and hence coerced to `0` by the
`Number(x ?? 0)` step below. -/

/-- The legacy BigQuery row shape `{ f: [...] }`: timestamp, value, lower
and upper confidence bound cells. -/
structure LegacyFields where
  ts : Option Int
  value : Option ℚ
  lo : Option ℚ
  hi : Option ℚ
deriving Repr, DecidableEq

/-- A remote forecast row (Shape A direct fields, plus the legacy `f`). -/
structure RemoteRow where
  forecast_timestamp : Option Int
  timestamp : Option Int
  ts : Option Int
  forecast_value : Option ℚ
  value : Option ℚ
  confidence_lower_bound : Option ℚ
  confidence_low : Option ℚ
  confidence_upper_bound : Option ℚ
  confidence_high : Option ℚ
  f : Option LegacyFields
deriving Repr, DecidableEq

/-- JS `a || b` on optional integers: a present but zero (falsy) value is
skipped. -/
def jsOrI (a b : Option Int) : Option Int :=
  match a with
  | some t => if t = 0 then b else some t
  | none => b

/-- The payload handed to `formatForecastResult` (a dynamic object, probed
for a `forecast` field — any array there is truthy — and a `rows` array). -/
structure ForecastPayload where
  hasForecastField : Bool
  rows : Option (List RemoteRow)
deriving Repr, DecidableEq

/-- Parse one remote row into a `ForecastPoint`
(`formatForecastResult`'s row mapper): direct fields take precedence via
`??`-chains, then the legacy `f` cells; missing numbers coerce to `0`
(`Number(x ?? 0)`), a missing/falsy timestamp becomes `Date.now()`. -/
def parseRemoteRow (row : RemoteRow) (nowMs : Int) : ForecastPoint :=
  let rt := jsOrI (jsOrI row.forecast_timestamp row.timestamp) row.ts
  let rv := row.forecast_value <|> row.value
  let cl := row.confidence_lower_bound <|> row.confidence_low
  let ch := row.confidence_upper_bound <|> row.confidence_high
  let tsv := jsOrI rt (row.f.bind LegacyFields.ts)
  { ts :=
      match jsOrI tsv (some nowMs) with
      | some t => t
      | none => nowMs
    value := (rv <|> row.f.bind LegacyFields.value).getD 0
    confidence_low := (cl <|> row.f.bind LegacyFields.lo).getD 0
    confidence_high := (ch <|> row.f.bind LegacyFields.hi).getD 0 }

/-- Models `BigQueryService.formatForecastResult`: normalise a remote payload into
the app `Forecast` format.  Without a `rows` array it falls back to the
demo generator (hence the `now`/`r`/`racc` parameters); with rows, the
summary trend is computed from the first and last parsed values. -/
def formatForecastResult (result : ForecastPayload) (request : ForecastRequest)
    (nowMs : Int) (now : DateYM) (r : Nat → ℚ) (racc : ℚ) : Forecast :=
  let rows := result.rows.getD []
  if rows.isEmpty then generateDemoForecast request now r racc
  else
    let forecast := rows.map (parseRemoteRow · nowMs)
    let first := (forecast.head?.map ForecastPoint.value).getD 0
    let last := (forecast.getLast?.map ForecastPoint.value).getD first
    let trend := if first ≤ last then "increasing" else "decreasing"
    { forecast := forecast
      summary :=
        { trend := trend
          impact := getImpactMessage request.indicator request.region
          recommendation := getRecommendation request.indicator
          accuracy_score := 0.88 } }

/-! The intelligent fallback forecast (src part_004, lines 334–387).  Its
trend/seasonality statistics are rational, but the seasonal component uses
`Math.sin`/`Math.PI` and is therefore modelled over `ℝ`. -/

/-- Models `BigQueryService.calculateTrend`: least-squares slope over the index.
For fewer than two values it returns `0`. -/
def calculateTrend (values : List ℚ) : ℚ :=
  if values.length < 2 then 0
  else
    let n : ℚ := values.length
    let sumX := n * (n - 1) / 2
    let sumY := values.sum
    let sumXY := (values.enum.map fun p => p.2 * (p.1 : ℚ)).sum
    let sumXX := n * (n - 1) * (2 * n - 1) / 6
    (n * sumXY - sumX * sumY) / (n * sumXX - sumX * sumX)

/-- Models `BigQueryService.calculateAutocorrelation` at a given lag. -/
def calculateAutocorrelation (values : List ℚ) (lag : Nat) : ℚ :=
  if values.length ≤ lag then 0
  else
    let mean := values.sum / values.length
    let get := fun (i : Nat) => (values.get? i).getD 0
    let num := ((List.range (values.length - lag)).map fun i =>
      (get i - mean) * (get (i + lag) - mean)).sum
    let den := ((List.range values.length).map fun i =>
      (get i - mean) ^ 2).sum
    if den = 0 then 0 else num / den

/-- Models `BigQueryService.detectSeasonality`: at least 12 values and lag-12
autocorrelation above `0.3` in absolute value. -/
def detectSeasonality (values : List ℚ) : Bool :=
  12 ≤ values.length ∧ 0.3 < |calculateAutocorrelation values 12|

/-- A forecast point of the intelligent fallback (real-valued because of
its sinusoidal seasonal component). -/
structure RealForecastPoint where
  ts : Int
  value : ℝ
  confidence_low : ℝ
  confidence_high : ℝ

/-- The object returned by `generateIntelligentForecast`:
`{ forecast, trend, seasonality_detected }`. -/
structure IntelligentForecast where
  forecast : List RealForecastPoint
  trend : ℚ
  seasonality_detected : Bool

/-- Models `BigQueryService.generateIntelligentForecast`: extrapolate the last
historical value along the least-squares trend, plus an optional seasonal
sine component and ±5 % noise; confidence bounds at ±10 %.  `nowMs` is
`Date.now()` (timestamps step by 30 days), `r i` the noise draw for point
`i`.  An empty `data` list (whose JS indexing would produce `NaN`) is
modelled with base value `0`. -/
noncomputable def generateIntelligentForecast (data : List HistPoint)
    (horizon : Nat) (nowMs : Int) (r : Nat → ℝ) : IntelligentForecast :=
  let values := data.map HistPoint.value
  let trend := calculateTrend values
  let seasonality := detectSeasonality values
  let forecast := (List.range horizon).map fun (i : Nat) =>
    let baseValue : ℝ := ((values.getLast?.getD 0 : ℚ) : ℝ) + (trend : ℝ) * i
    let seasonal : ℝ :=
      if seasonality then
        Real.sin (i * 2 * Real.pi / 12) *
          (((values.sum / values.length : ℚ) : ℝ) * 0.1)
      else 0
    let noise := (r i - 0.5) * baseValue * 0.05
    { ts := nowMs + (i : Int) * (30 * 24 * 60 * 60 * 1000)
      value := baseValue + seasonal + noise
      confidence_low := (baseValue + seasonal + noise) * 0.9
      confidence_high := (baseValue + seasonal + noise) * 1.1 : RealForecastPoint }
  { forecast := forecast, trend := trend, seasonality_detected := seasonality }

/-- The intelligent forecast object as seen by the pipeline's dynamic
probes: it has a (truthy) `forecast` array field and no `rows` field. -/
def intelligentPayload (_f : IntelligentForecast) : ForecastPayload :=
  { hasForecastField := true, rows := none }

/-! Query execution (src part_004, lines 389–434). -/

/-- The simulated BigQuery job result, probed by the forecast path as
`result.rows?.[0]?.forecast_result`. -/
structure BQExecResult where
  firstForecastResult : Option ForecastPayload
deriving Repr, DecidableEq

/-- The messages of the failing validation rules for a query (rule 1:
required; rule 2: string of length at least 10). -/
def queryValidationErrors (q : String) : List String :=
  (if q = "" then ["BigQuery query is required"] else []) ++
    (if q.length < 10 then ["Query must be a string"] else [])

/-- The `BIGQUERY_EXECUTION_ERROR` wrapper created by
`executeBigQueryAI`'s catch block. -/
def bigqueryExecutionError (msg : String) : AppError :=
  { message := "BigQuery execution failed: " ++ msg
    code := "BIGQUERY_EXECUTION_ERROR"
    severity := "high"
    category := "api"
    action := "executeBigQueryAI"
    recoverable := true }

/-- Models `BigQueryService.executeBigQueryAI`: validate the query (both a
validation failure and a retry-exhausted failure are re-wrapped as
`BIGQUERY_EXECUTION_ERROR` by the catch block), then run the simulated
call under `withRetry` with operation id `` `bigquery-${query.substring(0,50)}` ``.
Returns the settled result, the final retry-counter map, and the backoff
delays awaited. -/
def executeBigQueryAI (query : String) (retries : Nat) (retryDelay : ℚ)
    (rst : RetryMap) (ops : Nat → Except String BQExecResult) :
    Except AppError BQExecResult × RetryMap × List ℚ :=
  if queryValidationErrors query ≠ [] then
    (.error (bigqueryExecutionError ("Query validation failed: " ++
      String.intercalate ", " (queryValidationErrors query))), rst, [])
  else
    let out := withRetryAux ops retries retryDelay
      ("bigquery-" ++ query.take 50) rst 0
    match out.result with
    | .ok r => (.ok r, out.state, out.delays)
    | .error e => (.error (bigqueryExecutionError e.message), out.state, out.delays)

/-- The `AI.FORECAST` query text built by `forecastTimeSeries` (the SQL
template with the horizon and serialised data interpolated). -/
def buildForecastQuery (data : List HistPoint) (horizon : Nat) : String :=
  "SELECT AI.FORECAST(data_table, STRUCT(" ++ toString horizon ++
    " AS horizon, 0.95 AS confidence_level)) AS forecast_result FROM (" ++
    toString (data.map fun p => (p.ts, p.value)) ++ ")"

/-- The cache key `` `ai_forecast_${JSON.stringify({data: data.slice(0,5),
horizon})}` `` (the JSON serialisation modelled by `toString`). -/
def forecastCacheKey (data : List HistPoint) (horizon : Nat) : String :=
  "ai_forecast_" ++ toString ((data.take 5).map fun p => (p.ts, p.value)) ++
    "_" ++ toString horizon

/-- The mutable state of `BigQueryService` used by the forecast path: the
query cache (here holding this path's payload entries) and the shared
retry counters. -/
structure BQState where
  queryCache : String → Option (CacheEntry ForecastPayload)
  retryCount : RetryMap

/-- A freshly constructed service: empty cache, no retry counters. -/
def bqInitial : BQState := { queryCache := memp, retryCount := memp }

/-- Models `BigQueryService.forecastTimeSeries`: cache check, then the retried
remote `AI.FORECAST` call (a missing/falsy `forecast_result` is replaced
by `{ forecast: [], confidence_intervals: [] }` and cached); its catch
block degrades to `generateIntelligentForecast`, so the function itself
never rejects. -/
noncomputable def forecastTimeSeries (data : List HistPoint) (horizon : Nat)
    (nowMs : Int) (retries : Nat) (retryDelay : ℚ) (st : BQState)
    (ops : Nat → Except String BQExecResult) (rI : Nat → ℝ) :
    ForecastPayload × BQState :=
  let cacheKey := forecastCacheKey data horizon
  match getCachedResult st.queryCache cacheKey nowMs with
  | some cached => (cached, st)
  | none =>
    match executeBigQueryAI (buildForecastQuery data horizon) retries retryDelay
        st.retryCount ops with
    | (.ok result, rst, _) =>
      let payload := result.firstForecastResult.getD
        { hasForecastField := true, rows := none }
      (payload, { queryCache := setCachedResult st.queryCache cacheKey payload nowMs
                  retryCount := rst })
    | (.error _, rst, _) =>
      (intelligentPayload (generateIntelligentForecast data horizon nowMs rI),
        { queryCache := st.queryCache, retryCount := rst })

/-- Models `BigQueryService.generateForecast`: demo mode short-circuits to the
demo generator; bigquery mode builds synthetic history, runs the (retried,
internally degrading) forecast call, formats a payload that has a
`forecast` field, and falls back to the demo generator otherwise — the
final `catch` turns any escaped error into the demo result, so the settled
promise is always a fulfilled `Forecast`. -/
noncomputable def generateForecast (request : ForecastRequest) (now : DateYM)
    (nowMs : Int) (rh rd : Nat → ℚ) (racc : ℚ) (rI : Nat → ℝ)
    (retries : Nat) (retryDelay : ℚ) (st : BQState)
    (ops : Nat → Except String BQExecResult) :
    Except AppError Forecast × BQState :=
  if request.mode = "demo" then
    (.ok (generateDemoForecast request now rd racc), st)
  else
    let historicalData := getHistoricalData request now rh
    let horizon := getTimeHorizon request.timeRange
    let (forecastResult, st') :=
      forecastTimeSeries historicalData horizon nowMs retries retryDelay st ops rI
    if forecastResult.hasForecastField then
      (.ok (formatForecastResult forecastResult request nowMs now rd racc), st')
    else
      (.ok (generateDemoForecast request now rd racc), st')

/-! ### ClimateInsightEngine mock fallback (src part_001, lines 326–399) -/

/-- Models `Math.round(x * 100) / 100` over the reals (the engine's mock values
involve `Math.sin`). -/
noncomputable def round2R (x : ℝ) : ℝ :=
  ((Int.floor (x * 100 + 1/2) : ℤ) : ℝ) / 100

/-- The per-indicator mock value formula of
`ClimateInsightEngine.generateMockForecast`; `rdef` is the `Math.random()`
draw used only by the default branch. -/
noncomputable def mockValue (indicator : String) (i : Nat) (rdef : Nat → ℝ) : ℝ :=
  if indicator = "co2" then 400 + Real.sin (i * 0.05) * 10 + i * 0.5
  else if indicator = "avg_temperature" then
    14.5 + Real.sin (i * 0.5) * 2 + i * 0.01
  else if indicator = "gdp" then 50000 + Real.sin (i * 0.02) * 5000 + i * 100
  else if indicator = "renewable_adoption" then
    10 + i * 0.3 + Real.sin (i * 0.1) * 2
  else rdef i * 100

/-- Models `ClimateInsightEngine.generateMockForecast`: 120 monthly points
starting ten years before `currentYear`
(`new Date(currentYear - 10 + ⌊i/12⌋, i % 12, 1)` has month index
`12 * (currentYear - 10) + i`), with ±10 % confidence bounds. -/
noncomputable def generateMockForecast (indicator : String) (currentYear : Int)
    (rdef : Nat → ℝ) : List RealForecastPoint :=
  (List.range 120).map fun (i : Nat) =>
    let value := mockValue indicator i rdef
    { ts := 12 * (currentYear - 10) + (i : Int)
      value := round2R value
      confidence_low := round2R (value * 0.9)
      confidence_high := round2R (value * 1.1) }

/-- Models `ClimateInsightEngine.getImpactMessage` (the engine's own table,
distinct from the BigQueryService one). -/
def engineGetImpactMessage (indicator : String) : String :=
  if indicator = "co2" then
    "Current CO2 levels are 50% above pre-industrial baseline, accelerating climate change effects globally."
  else if indicator = "avg_temperature" then
    "Global temperatures have risen 1.2 degrees C since 1880, with accelerating warming in polar regions."
  else if indicator = "gdp" then
    "Climate adaptation costs are projected to reach 2-3% of global GDP by 2030."
  else if indicator = "renewable_adoption" then
    "Renewable energy adoption is accelerating but needs 3x faster growth to meet 2030 targets."
  else "Significant environmental and economic impacts detected."

/-- Models `ClimateInsightEngine.getRecommendation`. -/
def engineGetRecommendation (indicator : String) : String :=
  if indicator = "co2" then
    "Implement immediate carbon pricing mechanisms and invest in carbon capture technologies."
  else if indicator = "avg_temperature" then
    "Prioritize adaptation strategies in vulnerable regions and enhance early warning systems."
  else if indicator = "gdp" then
    "Increase climate finance allocation and develop green economic transition plans."
  else if indicator = "renewable_adoption" then
    "Remove policy barriers and increase renewable energy investment incentives."
  else "Develop comprehensive climate action strategy."

/-- A forecast object whose points are real-valued (the engine's mock
fallback). -/
structure EngineForecastData where
  forecast : List RealForecastPoint
  summary : ForecastSummary

/-- The mock `ForecastData` built in `fetchClimateData`'s catch block: the
summary trend is hardcoded from the indicator name
(`climateData.indicator === 'co2' ? 'increasing' : 'decreasing'`),
independent of the generated points. -/
noncomputable def engineMockFallback (indicator : String) (currentYear : Int)
    (rdef : Nat → ℝ) : EngineForecastData :=
  { forecast := generateMockForecast indicator currentYear rdef
    summary :=
      { trend := if indicator = "co2" then "increasing" else "decreasing"
        impact := engineGetImpactMessage indicator
        recommendation := engineGetRecommendation indicator
        accuracy_score := 0.87 } }

/-- Modelled from the spec (for comparison with the summaries the code
asserts): the trend direction derived deterministically from the first and
last value of a rational-valued series — `increasing` when the last value
is at least the first, `decreasing` otherwise. -/
def specDerivedTrend (ps : List ForecastPoint) : String :=
  if (ps.head?.map ForecastPoint.value).getD 0 ≤
      (ps.getLast?.map ForecastPoint.value).getD 0 then "increasing"
  else "decreasing"

/-- Modelled from the spec: the same derived trend for a real-valued
series. -/
noncomputable def specDerivedTrendR (ps : List RealForecastPoint) : String :=
  if (ps.head?.map RealForecastPoint.value).getD 0 ≤
      (ps.getLast?.map RealForecastPoint.value).getD 0 then "increasing"
  else "decreasing"

/-! ### VectorSearchService (vectorSearchService.ts) -/

/-- The `analysis` block of a `SimilarityResult`. -/
structure AnalysisInfo where
  correlation_strength : ℚ
  temporal_alignment : ℚ
  pattern_confidence : ℚ
  insights : List String
deriving Repr, DecidableEq

/-- A `SimilarityResult` (`key_metrics` is a string-keyed record, modelled
as an association list built by the object spreads in the source). -/
structure SimilarityResult where
  region : String
  country : String
  similarity_score : ℚ
  matching_patterns : List String
  key_metrics : List (String × ℚ)
  recommendations : String
  data_points : Int
  analysis : AnalysisInfo
deriving Repr, DecidableEq

/-- JS 32-bit signed wrap-around (the `hash & hash` coercion). -/
def toInt32 (n : Int) : Int := (n + 2 ^ 31) % 2 ^ 32 - 2 ^ 31

/-- Models `VectorSearchService.hashString`: the classic shift-accumulate string
hash, truncated to 32 bits each step, absolute value at the end. -/
def hashString (s : String) : Int :=
  |s.data.foldl (fun hash c => toInt32 (toInt32 (hash * 32) - hash + c.toNat)) 0|

/-- The per-indicator feature constant of `generateSemanticEmbedding`. -/
def indicatorFeature (indicator : String) : ℝ :=
  if indicator = "co2" then 0.8
  else if indicator = "avg_temperature" then 0.6
  else if indicator = "gdp" then 0.4
  else if indicator = "renewable_adoption" then 0.2
  else 0.5

/-- Models `VectorSearchService.generateSemanticEmbedding`: the simulated
768-dimensional embedding (sinusoidal features of the region hash, the
indicator constant and the time-range constant). -/
noncomputable def generateSemanticEmbedding (region indicator timeRange : String) :
    List ℝ :=
  let regionHash := hashString region
  let indicatorBase := indicatorFeature indicator
  let timeFeature : ℝ :=
    if timeRange = "1y" then 0.2 else if timeRange = "5y" then 0.5 else 0.8
  (List.range 768).map fun (i : Nat) =>
    if i < 256 then Real.sin (regionHash + i) * 0.5
    else if i < 512 then Real.cos (indicatorBase * Real.pi + i) * 0.3
    else Real.sin (timeFeature * Real.pi * 2 + i) * 0.4

/-- The mutable caches of the `VectorSearchService` instance. -/
structure VSState where
  embeddingCache : String → Option (List ℝ)
  resultsCache : String → Option (List SimilarityResult)

/-- A freshly constructed service. -/
def vsInitial : VSState := { embeddingCache := memp, resultsCache := memp }

/-- Models `VectorSearchService.generateEmbedding`: embedding-cache check, then
the simulated embedding, which is cached (both the try and its catch
produce `generateSemanticEmbedding`, so the call never rejects). -/
noncomputable def generateEmbedding (s : VSState)
    (region indicator timeRange : String) : List ℝ × VSState :=
  let embeddingKey := region ++ "-" ++ indicator ++ "-" ++ timeRange
  match s.embeddingCache embeddingKey with
  | some cached => (cached, s)
  | none =>
    let embedding := generateSemanticEmbedding region indicator timeRange
    (embedding, { s with embeddingCache := mset s.embeddingCache embeddingKey embedding })

/-- Models `VectorSearchService.getMatchingPatterns`. -/
def getMatchingPatterns (indicator climate : String) : List String :=
  (if indicator = "co2" then ["Industrial emissions", "Transportation patterns", "Energy mix"]
   else if indicator = "avg_temperature" then ["Seasonal variation", "Urban heat islands", "Climate zones"]
   else if indicator = "gdp" then ["Economic cycles", "Sectoral growth", "Trade patterns"]
   else if indicator = "renewable_adoption" then ["Policy frameworks", "Grid integration", "Investment trends"]
   else []) ++
  (if climate = "Mediterranean" then ["Dry summers", "Mild winters"]
   else if climate = "Continental" then ["Cold winters", "Warm summers"]
   else if climate = "Temperate" then ["Moderate seasons", "Consistent rainfall"]
   else if climate = "Oceanic" then ["Mild temperatures", "High humidity"]
   else if climate = "Subtropical" then ["Hot summers", "Mild winters"]
   else [])

/-- Models `VectorSearchService.generateKeyMetrics` (`rconf` is the
`Math.random()` draw for the confidence metric). -/
def generateKeyMetrics (indicator : String) (index : Nat) (rconf : ℚ) :
    List (String × ℚ) :=
  [("similarity", (95 : ℚ) - (index : ℚ) * 8),
   ("confidence", 88 + rconf * 8),
   ("data_coverage", 92 - (index : ℚ) * 3)] ++
  (if indicator = "co2" then
     [("emission_rate", (45 : ℚ) - (index : ℚ) * 5),
      ("reduction_potential", 25 + (index : ℚ) * 2)]
   else if indicator = "avg_temperature" then
     [("warming_rate", (1.2 : ℚ) + (index : ℚ) * 0.1),
      ("seasonal_variance", 15 - (index : ℚ))]
   else if indicator = "gdp" then
     [("growth_rate", (3.5 : ℚ) - (index : ℚ) * 0.3),
      ("volatility", 12 + (index : ℚ))]
   else if indicator = "renewable_adoption" then
     [("adoption_rate", (35 : ℚ) + (index : ℚ) * 3),
      ("capacity_factor", 28 - (index : ℚ))]
   else [])

/-- Models `VectorSearchService.generateRecommendations`. -/
def vsGenerateRecommendations (indicator region : String) : String :=
  if indicator = "co2" then
    "Monitor " ++ region ++ "\u0027s carbon pricing mechanisms and industrial transition strategies"
  else if indicator = "avg_temperature" then
    "Study " ++ region ++ "\u0027s climate adaptation policies and urban planning approaches"
  else if indicator = "gdp" then
    "Analyze " ++ region ++ "\u0027s economic diversification and green growth initiatives"
  else if indicator = "renewable_adoption" then
    "Examine " ++ region ++ "\u0027s renewable energy policies and grid modernization efforts"
  else "Conduct comparative analysis with " ++ region ++ "\u0027s climate-economy strategies"

/-- The canned region/country/climate table of
`generateVectorSearchResults`. -/
def vsRegionTable : List (String × String × String) :=
  [("California", "United States", "Mediterranean"),
   ("Bavaria", "Germany", "Continental"),
   ("Victoria", "Australia", "Temperate"),
   ("British Columbia", "Canada", "Oceanic"),
   ("Catalonia", "Spain", "Mediterranean"),
   ("Sao Paulo", "Brazil", "Subtropical"),
   ("New South Wales", "Australia", "Temperate"),
   ("Texas", "United States", "Subtropical")]

/-- Models `VectorSearchService.generateVectorSearchResults`: the simulated
`VECTOR_SEARCH` response (`r index` is the `Math.random()` draw consumed
by `generateKeyMetrics` for entry `index`). -/
def generateVectorSearchResults (indicator : String) (r : Nat → ℚ) :
    List SimilarityResult :=
  vsRegionTable.enum.map fun p =>
    let index : Nat := p.1
    { region := p.2.1
      country := p.2.2.1
      similarity_score := 0.95 - (index : ℚ) * 0.08
      matching_patterns := getMatchingPatterns indicator p.2.2.2
      key_metrics := generateKeyMetrics indicator index (r index)
      recommendations := vsGenerateRecommendations indicator p.2.1
      data_points := 120 - (index : Int) * 5
      analysis :=
        { correlation_strength := 0, temporal_alignment := 0
          pattern_confidence := 0, insights := [] } }

/-- Models `VectorSearchService.performVectorSearch`: builds (and ignores) the
`VECTOR_SEARCH` SQL over the target embedding, returning the simulated
response in both its try and catch branches. -/
def vsPerformVectorSearch (_targetEmbedding : List ℝ) (indicator : String)
    (r : Nat → ℚ) : List SimilarityResult :=
  generateVectorSearchResults indicator r

/-- Models `VectorSearchService.generateAIInsights`. -/
def generateAIInsights (targetRegion indicator : String) : List String :=
  ["Strong " ++ indicator ++ " correlation with " ++ targetRegion,
   "Similar seasonal patterns and economic drivers",
   "Comparable policy frameworks and implementation outcomes"] ++
  (if indicator = "co2" then
     ["Emission reduction trajectories align closely",
      "Industrial composition shows similar carbon intensity",
      "Transportation sector contributions match regional patterns"]
   else if indicator = "avg_temperature" then
     ["Temperature anomalies follow similar temporal patterns",
      "Urban heat island effects show comparable magnitude",
      "Seasonal variation patterns indicate climate similarity"]
   else if indicator = "gdp" then
     ["Economic growth patterns demonstrate strong correlation",
      "Sectoral composition and productivity trends align",
      "Trade relationships and economic cycles synchronize"]
   else if indicator = "renewable_adoption" then
     ["Renewable energy deployment follows similar trajectories",
      "Policy incentives and market conditions align",
      "Grid integration challenges and solutions comparable"]
   else [])

/-- Models `VectorSearchService.enhanceWithAIAnalysis` (`r2 (2i)` and
`r2 (2i + 1)` are the two `Math.random()` draws for entry `i`). -/
def enhanceWithAIAnalysis (results : List SimilarityResult)
    (targetRegion indicator : String) (r2 : Nat → ℚ) : List SimilarityResult :=
  results.enum.map fun p =>
    { p.2 with
      analysis :=
        { correlation_strength := 0.9 - p.1 * 0.1
          temporal_alignment := 0.85 + r2 (2 * p.1) * 0.1
          pattern_confidence := 0.88 + r2 (2 * p.1 + 1) * 0.08
          insights := generateAIInsights targetRegion indicator } }

/-- Models `VectorSearchService.generateFallbackResults`: the catch-branch result
of `findSimilarRegions` (never cached). -/
def generateFallbackResults (_targetRegion indicator : String) :
    List SimilarityResult :=
  [{ region := "California"
     country := "United States"
     similarity_score := 0.89
     matching_patterns := ["Policy frameworks", "Economic structure"]
     key_metrics := [("similarity", 89), ("confidence", 85)]
     recommendations := "Study California\u0027s " ++ indicator ++ " strategies as reference"
     data_points := 120
     analysis :=
       { correlation_strength := 0.87, temporal_alignment := 0.92
         pattern_confidence := 0.85
         insights := ["Similar " ++ indicator ++ " patterns",
           "Comparable policy approaches"] }}]

/-- Models `VectorSearchService.findSimilarRegions`: similarity-results cache
check first (no time parameter — entries never expire); on a miss, the
embedding step, the simulated vector search and the AI enhancement run,
and the enhanced results are stored under the `-`-joined key.  Every step
catches internally, so the success path always completes and caches. -/
noncomputable def findSimilarRegions (s : VSState)
    (targetRegion indicator timeRange : String) (rv re : Nat → ℚ) :
    List SimilarityResult × VSState :=
  let cacheKey := targetRegion ++ "-" ++ indicator ++ "-" ++ timeRange
  match s.resultsCache cacheKey with
  | some cached => (cached, s)
  | none =>
    let embStep := generateEmbedding s targetRegion indicator timeRange
    let results := vsPerformVectorSearch embStep.1 indicator rv
    let enhancedResults := enhanceWithAIAnalysis results targetRegion indicator re
    (enhancedResults,
      { embStep.2 with
        resultsCache := mset embStep.2.resultsCache cacheKey enhancedResults })

/-- Models `VectorSearchService.clearCache`: empties both caches. -/
def clearCacheVS (_s : VSState) : VSState :=
  { embeddingCache := memp, resultsCache := memp }

/-!
## Theorems settling the claims
-/

theorem mset_self {α : Type} (m : String → Option α) (k : String) (v : α) :
    mset m k v k = some v := by
  simp [mset]

theorem mset_other {α : Type} (m : String → Option α) (k x : String) (v : α)
    (h : x ≠ k) : mset m k v x = m x := by
  simp [mset, h]

theorem mdel_self {α : Type} (m : String → Option α) (k : String) :
    mdel m k k = none := by
  simp [mdel]

theorem mdel_other {α : Type} (m : String → Option α) (k x : String)
    (h : x ≠ k) : mdel m k x = m x := by
  simp [mdel, h]

/-- Whatever the operation outcomes, a completed `withRetry` call leaves
no retry counter behind for its operation id (success and exhaustion both
delete it). -/
theorem withRetry_state_deleted {α : Type} (ops : Nat → Except String α)
    (retries : Nat) (retryDelay : ℚ) (operationId : String) (st : RetryMap)
    (k : Nat) :
    (withRetryAux ops retries retryDelay operationId st k).state operationId = none := by
  induction st, k using withRetryAux.induct ops retries retryDelay operationId with
  | case1 st k v hv =>
    simp [withRetryAux, hv, mdel]
  | case2 st k cur e he hlt ih =>
    rw [withRetryAux]
    simp only [he]
    rw [if_pos (show (st operationId).getD 0 < retries from hlt)]
    exact ih
  | case3 st k cur e he hlt =>
    rw [withRetryAux]
    simp only [he]
    rw [if_neg (show ¬ (st operationId).getD 0 < retries from hlt)]
    simp [mdel]

/-- A `withRetry` call can only reject with the `RETRY_EXHAUSTED` error
wrapping the message of the last (every preceding invocation having
failed too) underlying failure. -/
theorem withRetry_error_spec {α : Type} (ops : Nat → Except String α)
    (retries : Nat) (retryDelay : ℚ) (operationId : String) (st : RetryMap)
    (k : Nat) :
    ∀ e, (withRetryAux ops retries retryDelay operationId st k).result = .error e →
      e.code = "RETRY_EXHAUSTED" ∧
      ∃ j m, k ≤ j ∧ ops j = .error m ∧
        (∀ i, k ≤ i → i ≤ j → ∃ mi, ops i = .error mi) ∧
        e = retryExhaustedError retries m operationId := by
  induction st, k using withRetryAux.induct ops retries retryDelay operationId with
  | case1 st k v hv =>
    intro e he2
    rw [withRetryAux] at he2
    simp [hv] at he2
  | case2 st k cur e he hlt ih =>
    intro e2 he2
    rw [withRetryAux] at he2
    simp only [he] at he2
    rw [if_pos (show (st operationId).getD 0 < retries from hlt)] at he2
    obtain ⟨hc, j, m, hkj, hj, hall, hwrap⟩ := ih e2 he2
    refine ⟨hc, j, m, by omega, hj, ?_, hwrap⟩
    intro i hki hij
    rcases Nat.eq_or_lt_of_le hki with hik | hik
    · exact ⟨e, hik ▸ he⟩
    · exact hall i hik hij
  | case3 st k cur e he hlt =>
    intro e2 he2
    rw [withRetryAux] at he2
    simp only [he] at he2
    rw [if_neg (show ¬ (st operationId).getD 0 < retries from hlt)] at he2
    simp only [Except.error.injEq] at he2
    subst he2
    exact ⟨rfl, k, e, le_refl k, he,
      fun i hki hik => ⟨e, by rw [Nat.le_antisymm hik hki]; exact he⟩, rfl⟩

/-- With no counter stored for the operation id, a first failure backs off
by exactly the base delay (`retryDelay * 2 ^ 0`). -/
theorem withRetry_first_delay {α : Type} (ops : Nat → Except String α)
    (retries : Nat) (retryDelay : ℚ) (operationId : String) (st : RetryMap)
    (h0 : st operationId = none) (m : String) (hf : ops 0 = .error m)
    (hr : 0 < retries) :
    (withRetryAux ops retries retryDelay operationId st 0).delays.head? =
      some retryDelay := by
  rw [withRetryAux]
  simp only [hf]
  rw [if_pos (by simp [h0]; omega)]
  simp [h0]

/-- If every invocation of the operation fails, `withRetry` rejects. -/
theorem withRetry_allFail {α : Type} (ops : Nat → Except String α)
    (h : ∀ j, ∃ m, ops j = .error m) (retries : Nat) (retryDelay : ℚ)
    (operationId : String) (st : RetryMap) (k : Nat) :
    ∃ e, (withRetryAux ops retries retryDelay operationId st k).result = .error e := by
  induction st, k using withRetryAux.induct ops retries retryDelay operationId with
  | case1 st k v hv =>
    obtain ⟨m, hm⟩ := h k
    rw [hv] at hm
    cases hm
  | case2 st k cur e he hlt ih =>
    rw [withRetryAux]
    simp only [he]
    rw [if_pos (show (st operationId).getD 0 < retries from hlt)]
    exact ih
  | case3 st k cur e he hlt =>
    rw [withRetryAux]
    simp only [he]
    rw [if_neg (show ¬ (st operationId).getD 0 < retries from hlt)]
    exact ⟨_, rfl⟩

/-- C2: for every operation id, the retry counter held by `withRetry` is
absent (deleted, not reset to 0) after the call completes — on any success
and on exhaustion alike; a rejection is always the terminal
`RETRY_EXHAUSTED` error wrapping the last underlying failure's message;
and a later call with the same id (here: any operation whose first
invocation fails, run against the final state) restarts backoff at the
base delay `retryDelay * 2 ^ 0`. -/
theorem C2_retry_counter_hygiene {α : Type} (ops : Nat → Except String α)
    (retries : Nat) (retryDelay : ℚ) (operationId : String) (st : RetryMap)
    (k : Nat) :
    (withRetryAux ops retries retryDelay operationId st k).state operationId = none ∧
    (∀ e, (withRetryAux ops retries retryDelay operationId st k).result = .error e →
      e.code = "RETRY_EXHAUSTED" ∧
      ∃ j m, k ≤ j ∧ ops j = .error m ∧
        (∀ i, k ≤ i → i ≤ j → ∃ mi, ops i = .error mi) ∧
        e = retryExhaustedError retries m operationId) ∧
    (∀ ops2 : Nat → Except String α, ∀ m, ops2 0 = .error m → 0 < retries →
      (withRetryAux ops2 retries retryDelay operationId
        (withRetryAux ops retries retryDelay operationId st k).state 0).delays.head? =
        some retryDelay) :=
  ⟨withRetry_state_deleted ops retries retryDelay operationId st k,
   withRetry_error_spec ops retries retryDelay operationId st k,
   fun ops2 m hm hr => withRetry_first_delay ops2 retries retryDelay operationId
     (withRetryAux ops retries retryDelay operationId st k).state
     (withRetry_state_deleted ops retries retryDelay operationId st k) m hm hr⟩

/-- C2 witness: an always-failing operation under limit 2 leaves no
counter for its id. -/
theorem C2_witness :
    (withRetryAux (α := Unit) (fun _ => Except.error "boom") 2 1000 "op"
      (memp : RetryMap) 0).state "op" = none :=
  (C2_retry_counter_hygiene (α := Unit) (fun _ => Except.error "boom") 2 1000 "op"
    memp 0).1

/-- C6: a cache entry stored by `setCachedResult` is readable by
`getCachedResult` iff `now - storedAt < TTL` (TTL = 300000 ms): a get
strictly before the TTL boundary (in particular at `TTL - 1`) returns the
stored value unchanged, a get at or after the boundary (in particular at
`TTL`) treats the entry as absent, and the entry itself is replaced
wholesale by the `set`. -/
theorem C6_cache_ttl_boundary {α : Type} (cache : String → Option (CacheEntry α))
    (key : String) (result : α) (t now : Int) :
    getCachedResult (setCachedResult cache key result t) key now =
      (if now - t < CACHE_TTL then some result else none) ∧
    getCachedResult (setCachedResult cache key result t) key (t + (CACHE_TTL - 1)) =
      some result ∧
    getCachedResult (setCachedResult cache key result t) key (t + CACHE_TTL) = none ∧
    setCachedResult cache key result t key = some ⟨result, t⟩ := by
  refine ⟨?_, ?_, ?_, ?_⟩
  · simp [getCachedResult, setCachedResult, mset, CACHE_TTL]
  · simp only [getCachedResult, setCachedResult, mset_self, CACHE_TTL]
    rw [if_pos (by omega)]
  · simp only [getCachedResult, setCachedResult, mset_self, CACHE_TTL]
    rw [if_neg (by omega)]
  · simp [setCachedResult, mset]

/-- C8 counterexample: the code's direction test classifies a zero change
as a decrease (`update.change > 0 ? 'increase' : 'decrease'`), so with an
`absolute` rule of threshold `0` and direction `decrease`, a `DataPoint`
with `change = 0` fires the alert although the *sign* of the change (zero)
matches neither direction — refuting the claim that `increase`/`decrease`
pass only if the sign of `change` matches. -/
theorem C8_counterexample :
    checkAlerts
        (fun k => if k = "co2-Germany" then
          some { threshold := 0, type := "absolute", direction := "decrease" }
          else none)
        { timestamp := 0, indicator := "co2", region := "Germany", value := 1
          change := 0, changePercent := 0, source := "sim", reliability := "high" } = true ∧
    ¬ specAlertFires { threshold := 0, type := "absolute", direction := "decrease" }
        { timestamp := 0, indicator := "co2", region := "Germany", value := 1
          change := 0, changePercent := 0, source := "sim", reliability := "high" } := by
  constructor
  · decide
  · decide

/-- C8 (amended): an alert fires iff the threshold test on the configured
kind passes and the direction test passes, where `both` always passes,
`increase` passes iff `change > 0`, and `decrease` passes iff
`change ≤ 0` — i.e. the code classifies a zero change as a decrease; on
data points with nonzero change this coincides with the claimed
sign-matching rule. -/
theorem C8_amended_alert_rule (alerts : String → Option AlertConfig)
    (u : DataUpdate) (cfg : AlertConfig)
    (h : alerts (topicKey u.indicator u.region) = some cfg) :
    checkAlerts alerts u = true ↔
      ((if cfg.type = "absolute" then |u.change| ≥ cfg.threshold
          else |u.changePercent| ≥ cfg.threshold) ∧
        (cfg.direction = "both" ∨ (cfg.direction = "increase" ∧ 0 < u.change) ∨
          (cfg.direction = "decrease" ∧ u.change ≤ 0))) := by
  simp only [checkAlerts, h]
  constructor
  · intro hc
    have hT : (if cfg.type = "absolute" then |u.change| ≥ cfg.threshold
        else |u.changePercent| ≥ cfg.threshold) := by
      by_contra hT
      rw [if_neg hT] at hc
      exact absurd hc (by simp)
    rw [if_pos hT, decide_eq_true_eq] at hc
    refine ⟨hT, ?_⟩
    rcases hc with hb | hd
    · exact Or.inl hb
    · by_cases hpos : u.change > 0
      · rw [if_pos hpos] at hd
        exact Or.inr (Or.inl ⟨hd, hpos⟩)
      · rw [if_neg hpos] at hd
        exact Or.inr (Or.inr ⟨hd, by linarith⟩)
  · rintro ⟨hT, hd⟩
    rw [if_pos hT, decide_eq_true_eq]
    rcases hd with hb | ⟨hi, hpos⟩ | ⟨hdec, hle⟩
    · exact Or.inl hb
    · rw [if_pos hpos]
      exact Or.inr hi
    · rw [if_neg (by linarith : ¬ u.change > 0)]
      exact Or.inr hdec

/-- C8 witness: the claim's own example rule (`threshold = 5`,
`kind = percentage`, `direction = increase`): a data point with
`changePercent = 6` (and positive change) triggers the alert; the data
points with `changePercent = -6` and `changePercent = 4` do not. -/
theorem C8_witness :
    checkAlerts
        (fun k => if k = "co2-Germany" then
          some { threshold := 5, type := "percentage", direction := "increase" }
          else none)
        { timestamp := 0, indicator := "co2", region := "Germany", value := 106
          change := 6, changePercent := 6, source := "sim", reliability := "high" } = true ∧
    checkAlerts
        (fun k => if k = "co2-Germany" then
          some { threshold := 5, type := "percentage", direction := "increase" }
          else none)
        { timestamp := 0, indicator := "co2", region := "Germany", value := 94
          change := -6, changePercent := -6, source := "sim", reliability := "high" } = false ∧
    checkAlerts
        (fun k => if k = "co2-Germany" then
          some { threshold := 5, type := "percentage", direction := "increase" }
          else none)
        { timestamp := 0, indicator := "co2", region := "Germany", value := 104
          change := 4, changePercent := 4, source := "sim", reliability := "high" } = false := by
  refine ⟨?_, by decide, by decide⟩
  exact (C8_amended_alert_rule _ _
    { threshold := 5, type := "percentage", direction := "increase" }
    (by decide)).mpr (by norm_num)

/-- JS `Math.round(v * 100) / 100` is monotone. -/
theorem round2_mono {x y : ℚ} (h : x ≤ y) : round2 x ≤ round2 y := by
  unfold round2 jsRound
  have hf : Int.floor (x * 100 + 1 / 2) ≤ Int.floor (y * 100 + 1 / 2) :=
    Int.floor_le_floor (by linarith)
  have h100 : (0 : ℚ) < 100 := by norm_num
  exact (div_le_div_iff_of_pos_right h100).mpr (by exact_mod_cast hf)

/-- Every configured base value is positive (the `|| 100` default
included). -/
theorem bqGetBaseValue_pos (indicator : String) : 0 < bqGetBaseValue indicator := by
  unfold bqGetBaseValue
  split_ifs <;> norm_num

/-- Every configured trend multiplier is positive (the default included). -/
theorem bqGetTrendMultiplier_pos (indicator : String) :
    0 < bqGetTrendMultiplier indicator := by
  unfold bqGetTrendMultiplier
  split_ifs <;> norm_num

/-- Every time horizon is at least 12 months. -/
theorem getTimeHorizon_ge_12 (timeRange : String) : 12 ≤ getTimeHorizon timeRange := by
  unfold getTimeHorizon
  split_ifs <;> norm_num

/-- A map over `List.range` whose images of successive indices are related
is a chain. -/
theorem chain'_range_map {β : Type} {R : β → β → Prop} (f : ℕ → β) (n : ℕ)
    (h : ∀ i, i + 1 < n → R (f i) (f (i + 1))) :
    List.Chain' R ((List.range n).map f) := by
  rw [List.chain'_map]
  cases n with
  | zero => simp
  | succ m =>
    rw [List.chain'_range_succ]
    intro i hi
    exact h i (by omega)

/-- The demo generator's point values are nonnegative whenever the random
draws stay in `[0, 1]`. -/
theorem demoVal_nonneg (indicator : String) (i : Nat) (ri : ℚ)
    (hr0 : 0 ≤ ri) (hr1 : ri ≤ 1) :
    0 ≤ bqGetBaseValue indicator + i * bqGetTrendMultiplier indicator +
      (ri - 0.5) * bqGetBaseValue indicator * 0.1 := by
  have hB := bqGetBaseValue_pos indicator
  have hT := bqGetTrendMultiplier_pos indicator
  have hi : (0 : ℚ) ≤ (i : ℚ) := Nat.cast_nonneg i
  nlinarith

/-- C3 (amended, synthetic path): every point of a demo-generated
`ForecastSeries` satisfies `confidence_low ≤ value ≤ confidence_high`
(given `Math.random()` draws in `[0, 1]`), and the point timestamps are
strictly ascending. -/
theorem C3_amended_demo_invariant (request : ForecastRequest) (now : DateYM)
    (r : Nat → ℚ) (racc : ℚ) (hr : ∀ i, 0 ≤ r i ∧ r i ≤ 1) :
    (∀ p ∈ (generateDemoForecast request now r racc).forecast,
      p.confidence_low ≤ p.value ∧ p.value ≤ p.confidence_high) ∧
    ((generateDemoForecast request now r racc).forecast.map ForecastPoint.ts).Pairwise
      (· < ·) := by
  constructor
  · intro p hp
    simp only [generateDemoForecast, List.mem_map, List.mem_range] at hp
    obtain ⟨i, hi, rfl⟩ := hp
    obtain ⟨hr0, hr1⟩ := hr i
    have hval := demoVal_nonneg request.indicator i (r i) hr0 hr1
    constructor
    · exact round2_mono (by nlinarith)
    · exact round2_mono (by nlinarith)
  · have hchain : List.Chain' (· < ·)
        ((generateDemoForecast request now r racc).forecast.map ForecastPoint.ts) := by
      simp only [generateDemoForecast, List.map_map]
      exact chain'_range_map _ _ (fun i hi => by
        simp only [Function.comp]
        omega)
    exact List.chain'_iff_pairwise.mp hchain

/-- C3 witness: the demo-path invariant holds at a concrete request with
all random draws equal to `1/2`. -/
theorem C3_witness :
    (∀ i : Nat, 0 ≤ (1 : ℚ) / 2 ∧ (1 : ℚ) / 2 ≤ 1) ∧
    ((∀ p ∈ (generateDemoForecast
        { indicator := "co2", region := "Germany", timeRange := "1y", mode := "demo" }
        ⟨2026, 0⟩ (fun _ => 1 / 2) (1 / 2)).forecast,
      p.confidence_low ≤ p.value ∧ p.value ≤ p.confidence_high) ∧
    ((generateDemoForecast
        { indicator := "co2", region := "Germany", timeRange := "1y", mode := "demo" }
        ⟨2026, 0⟩ (fun _ => 1 / 2) (1 / 2)).forecast.map ForecastPoint.ts).Pairwise
      (· < ·)) :=
  ⟨fun _ => by norm_num,
   C3_amended_demo_invariant _ ⟨2026, 0⟩ (fun _ => 1 / 2) (1 / 2)
     (fun _ => by norm_num)⟩

/-- C3 counterexample (real path): `formatForecastResult` copies remote
values through unchecked — a row carrying `value = 5` and no confidence
fields is coerced to `confidence_low = confidence_high = 0`
(`Number(x ?? 0)`), so the resulting series violates
`confidence_low ≤ value ≤ confidence_high`; the claim's universal
invariant over the real path is therefore false. -/
theorem C3_counterexample :
    ¬ (∀ p ∈ (formatForecastResult
        { hasForecastField := true
          rows := some [{ forecast_timestamp := none, timestamp := some 1,
                          ts := none, forecast_value := none, value := some 5,
                          confidence_lower_bound := none, confidence_low := none,
                          confidence_upper_bound := none, confidence_high := none,
                          f := none }] }
        { indicator := "co2", region := "Germany", timeRange := "5y", mode := "bigquery" }
        0 ⟨2026, 0⟩ (fun _ => 1 / 2) (1 / 2)).forecast,
      p.confidence_low ≤ p.value ∧ p.value ≤ p.confidence_high) := by
  decide

/-- The demo generator's summary trend is exactly the spec's first-vs-last
derivation (its extra `length > 1` guard is always satisfied, the horizon
being at least 12). -/
theorem trend_if_eq_spec (L : List ForecastPoint) (hlen : 1 < L.length) :
    (if 1 < L.length ∧ ((L.head?.map ForecastPoint.value).getD 0 ≤
        (L.getLast?.map ForecastPoint.value).getD 0) then "increasing"
      else "decreasing") = specDerivedTrend L := by
  unfold specDerivedTrend
  by_cases hcond : (L.head?.map ForecastPoint.value).getD 0 ≤
      (L.getLast?.map ForecastPoint.value).getD 0
  · rw [if_pos ⟨hlen, hcond⟩, if_pos hcond]
  · rw [if_neg (fun hc => hcond hc.2), if_neg hcond]

theorem demo_trend_derived (request : ForecastRequest) (now : DateYM)
    (r : Nat → ℚ) (racc : ℚ) :
    (generateDemoForecast request now r racc).summary.trend =
      specDerivedTrend (generateDemoForecast request now r racc).forecast := by
  simp only [generateDemoForecast]
  refine trend_if_eq_spec _ ?_
  simp only [List.length_map, List.length_range]
  have := getTimeHorizon_ge_12 request.timeRange
  omega

/-- The formatter's summary trend is the spec's first-vs-last derivation
over the series it actually returns (in its empty-rows branch it returns
the demo result, whose trend is derived from the demo series). -/
theorem format_trend_derived (result : ForecastPayload) (request : ForecastRequest)
    (nowMs : Int) (now : DateYM) (r : Nat → ℚ) (racc : ℚ) :
    (formatForecastResult result request nowMs now r racc).summary.trend =
      specDerivedTrend (formatForecastResult result request nowMs now r racc).forecast := by
  simp only [formatForecastResult]
  by_cases hrows : (result.rows.getD []).isEmpty
  · rw [if_pos hrows]
    exact demo_trend_derived request now r racc
  · rw [if_neg hrows]
    have hne : (result.rows.getD []).map (fun row => parseRemoteRow row nowMs) ≠ [] := by
      intro hmap
      rw [List.map_eq_nil_iff] at hmap
      rw [hmap] at hrows
      exact hrows rfl
    cases hL : ((result.rows.getD []).map (fun row => parseRemoteRow row nowMs)).getLast? with
    | none => exact absurd (List.getLast?_eq_none_iff.mp hL) hne
    | some x =>
      simp only [specDerivedTrend, hL, Option.map_some', Option.getD_some]

/-- C4 (amended): the demo generator and the remote formatter both derive
the summary trend deterministically from the first and last value of the
series actually returned (`increasing` iff the last value is at least the
first); the claim fails only for the engine's mock fallback, which
hardcodes the trend from the indicator name (see the counterexample). -/
theorem C4_amended_trend_derivation :
    (∀ (request : ForecastRequest) (now : DateYM) (r : Nat → ℚ) (racc : ℚ),
      (generateDemoForecast request now r racc).summary.trend =
        specDerivedTrend (generateDemoForecast request now r racc).forecast) ∧
    (∀ (result : ForecastPayload) (request : ForecastRequest) (nowMs : Int)
        (now : DateYM) (r : Nat → ℚ) (racc : ℚ),
      (formatForecastResult result request nowMs now r racc).summary.trend =
        specDerivedTrend (formatForecastResult result request nowMs now r racc).forecast) :=
  ⟨demo_trend_derived, format_trend_derived⟩

/-- Models `Math.round(x * 100) / 100` over `ℝ` fixes integers. -/
theorem round2R_intCast (n : ℤ) : round2R (n : ℝ) = (n : ℝ) := by
  unfold round2R
  have hfl : ⌊(n : ℝ) * 100 + 1 / 2⌋ = 100 * n := by
    rw [Int.floor_eq_iff]
    constructor
    · push_cast
      linarith
    · push_cast
      linarith
  rw [hfl]
  push_cast
  ring

/-- Models `Math.round(x * 100) / 100` over `ℝ` is monotone. -/
theorem round2R_mono {x y : ℝ} (h : x ≤ y) : round2R x ≤ round2R y := by
  unfold round2R
  have hf : Int.floor (x * 100 + 1 / 2) ≤ Int.floor (y * 100 + 1 / 2) :=
    Int.floor_le_floor (by linarith)
  have h100 : (0 : ℝ) < 100 := by norm_num
  exact (div_le_div_iff_of_pos_right h100).mpr (by exact_mod_cast hf)

/-- C4 counterexample: the engine's mock fallback asserts the trend from
the indicator name alone (`'co2' ? 'increasing' : 'decreasing'`).  For
indicator `gdp` it reports `decreasing`, yet the mock series it generates
rises from `50000` (at `i = 0`, where the sine vanishes) to at least
`56900` (at `i = 119`, where the sine term is bounded below by `-5000`
while the linear term adds `11900`), so the trend derived from the first
and last value of the returned series is `increasing`. -/
theorem C4_counterexample :
    (engineMockFallback "gdp" 2026 (fun _ => 0)).summary.trend = "decreasing" ∧
    specDerivedTrendR (engineMockFallback "gdp" 2026 (fun _ => 0)).forecast =
      "increasing" := by
  constructor
  · simp [engineMockFallback]
  · unfold specDerivedTrendR engineMockFallback generateMockForecast
    have hh : (List.range 120).head? = some 0 := by
      rw [show (120 : Nat) = 119 + 1 from rfl, List.range_succ_eq_map]
      rfl
    have hl : (List.range 120).getLast? = some 119 := by
      rw [show (120 : Nat) = 119 + 1 from rfl, List.range_succ]
      exact List.getLast?_concat _
    rw [List.head?_map, List.getLast?_map, hh, hl]
    simp only [Option.map_some', Option.getD_some]
    have hv0 : mockValue "gdp" 0 (fun _ => 0) =
        50000 + Real.sin ((0 : Nat) * 0.02) * 5000 + (0 : Nat) * 100 := by
      simp [mockValue]
    have hv119 : mockValue "gdp" 119 (fun _ => 0) =
        50000 + Real.sin ((119 : Nat) * 0.02) * 5000 + (119 : Nat) * 100 := by
      simp [mockValue]
    rw [if_pos ?hcond]
    case hcond =>
      show round2R (mockValue "gdp" 0 (fun _ => 0)) ≤
        round2R (mockValue "gdp" 119 (fun _ => 0))
      have h0 : round2R (mockValue "gdp" 0 (fun _ => 0)) = 50000 := by
        rw [hv0]
        have harg : (50000 : ℝ) + Real.sin ((0 : Nat) * 0.02) * 5000 + (0 : Nat) * 100 =
            ((50000 : ℤ) : ℝ) := by
          norm_num [Real.sin_zero]
        rw [harg, round2R_intCast]
        norm_num
      have h119 : (50000 : ℝ) ≤ round2R (mockValue "gdp" 119 (fun _ => 0)) := by
        rw [hv119]
        have hs := Real.neg_one_le_sin (((119 : Nat) : ℝ) * 0.02)
        have hineq : ((56900 : ℤ) : ℝ) ≤
            50000 + Real.sin (((119 : Nat) : ℝ) * 0.02) * 5000 + ((119 : Nat) : ℝ) * 100 := by
          push_cast
          nlinarith
        calc (50000 : ℝ) ≤ ((56900 : ℤ) : ℝ) := by norm_num
          _ = round2R ((56900 : ℤ) : ℝ) := (round2R_intCast _).symm
          _ ≤ _ := round2R_mono hineq
      rw [h0]
      exact h119

/-- C1: `generateForecast` always settles with a fulfilled `Forecast` —
whatever the request (any indicator, region, timeRange and mode), the
cache and retry state, and however the underlying remote call behaves
(including throwing on every invocation): demo mode short-circuits to the
synthetic generator, and on the bigquery path every failure is absorbed
(the retried remote call's rejection is degraded to the intelligent
fallback inside `forecastTimeSeries`, and the formatter degrades to the
demo generator), so no error of any kind — in particular no
`VALIDATION`-category error, the one failure mode the spec permits the
core to surface — ever reaches the caller of this operation. -/
theorem C1_generateForecast_never_rejects (request : ForecastRequest)
    (now : DateYM) (nowMs : Int) (rh rd : Nat → ℚ) (racc : ℚ) (rI : Nat → ℝ)
    (retries : Nat) (retryDelay : ℚ) (st : BQState)
    (ops : Nat → Except String BQExecResult) :
    ∃ fc : Forecast,
      (generateForecast request now nowMs rh rd racc rI retries retryDelay st ops).1 =
        Except.ok fc := by
  unfold generateForecast
  by_cases hmode : request.mode = "demo"
  · rw [if_pos hmode]
    exact ⟨_, rfl⟩
  · rw [if_neg hmode]
    dsimp only
    rcases hfs : forecastTimeSeries (getHistoricalData request now rh)
        (getTimeHorizon request.timeRange) nowMs retries retryDelay st ops rI
      with ⟨fr, st2⟩
    dsimp only
    split
    · exact ⟨_, rfl⟩
    · exact ⟨_, rfl⟩

/-- When every remote invocation throws, `executeBigQueryAI` rejects
(either with the wrapped validation failure or with the wrapped
`RETRY_EXHAUSTED` error). -/
theorem executeBigQueryAI_error_of_allFail (q : String) (retries : Nat)
    (retryDelay : ℚ) (rst : RetryMap) (msgs : Nat → String) :
    ∃ e rst2 ds, executeBigQueryAI q retries retryDelay rst
      (fun j => Except.error (msgs j)) = (Except.error e, rst2, ds) := by
  unfold executeBigQueryAI
  by_cases hval : queryValidationErrors q ≠ []
  · rw [if_pos hval]
    exact ⟨_, _, _, rfl⟩
  · rw [if_neg hval]
    obtain ⟨e, he⟩ := withRetry_allFail (fun j => Except.error (msgs j))
      (fun j => ⟨msgs j, rfl⟩) retries retryDelay ("bigquery-" ++ q.take 50) rst 0
    dsimp only
    rw [he]
    exact ⟨_, _, _, rfl⟩

/-- On the bigquery path with an empty query cache and an always-throwing
remote call, `generateForecast` resolves with exactly the demo generator's
output (the intelligent fallback payload carries no `rows`, so the
formatter degrades to the demo series). -/
theorem generateForecast_fallback (request : ForecastRequest)
    (hmode : request.mode ≠ "demo") (now : DateYM) (nowMs : Int)
    (rh rd : Nat → ℚ) (racc : ℚ) (rI : Nat → ℝ) (retries : Nat)
    (retryDelay : ℚ) (rst : RetryMap) (msgs : Nat → String) :
    (generateForecast request now nowMs rh rd racc rI retries retryDelay
      { queryCache := memp, retryCount := rst }
      (fun j => Except.error (msgs j))).1 =
      Except.ok (generateDemoForecast request now rd racc) := by
  unfold generateForecast
  rw [if_neg hmode]
  obtain ⟨st2, hft⟩ : ∃ st2,
      forecastTimeSeries (getHistoricalData request now rh)
        (getTimeHorizon request.timeRange) nowMs retries retryDelay
        { queryCache := memp, retryCount := rst }
        (fun j => Except.error (msgs j)) rI =
      ({ hasForecastField := true, rows := none }, st2) := by
    unfold forecastTimeSeries
    dsimp only
    rw [show getCachedResult (memp : String → Option (CacheEntry ForecastPayload))
        (forecastCacheKey (getHistoricalData request now rh)
          (getTimeHorizon request.timeRange)) nowMs = none
      from by simp [getCachedResult, memp]]
    obtain ⟨e, rst2, ds, hex⟩ := executeBigQueryAI_error_of_allFail
      (buildForecastQuery (getHistoricalData request now rh)
        (getTimeHorizon request.timeRange)) retries retryDelay rst msgs
    dsimp only
    rw [hex]
    exact ⟨_, rfl⟩
  have hfmt : formatForecastResult { hasForecastField := true, rows := none }
      request nowMs now rd racc = generateDemoForecast request now rd racc := by
    simp [formatForecastResult]
  dsimp only
  rw [hft]
  dsimp only
  rw [if_pos rfl, hfmt]

/-- C5 counterexample: the simulated `fetchLatestData` — the only data
producer behind `RealTimeService`, hence a synthetic path — labels every
`DataUpdate` with `reliability: 'high'` and a real data-source name
(`NOAA Global Monitoring Laboratory` for `co2`), so the result is *not*
marked as synthetic or degraded via its source/reliability fields,
refuting the distinguishability part of the claim. -/
theorem C5_counterexample :
    ¬ specMarkedSynthetic
      (fetchLatestData rtInitial "co2" "Germany" (1 / 2) 0).1 ∧
    (fetchLatestData rtInitial "co2" "Germany" (1 / 2) 0).1.reliability = "high" ∧
    (fetchLatestData rtInitial "co2" "Germany" (1 / 2) 0).1.source =
      "NOAA Global Monitoring Laboratory" := by
  refine ⟨?_, ?_, ?_⟩ <;> decide

/-- C5 (amended): the end-to-end scenario holds except for the
synthetic/fallback marking: the request
`{indicator: 'co2', region: 'Germany', timeRange: '5y'}` on the bigquery
path with a remote call that always throws resolves with the demo
generator's `ForecastSeries`, which has exactly 60 points with strictly
ascending, consecutive monthly timestamps — but (see the counterexample)
no source/reliability field marks the degradation. -/
theorem C5_amended_fallback_scenario (now : DateYM) (nowMs : Int)
    (rh rd : Nat → ℚ) (racc : ℚ) (rI : Nat → ℝ) (retries : Nat)
    (retryDelay : ℚ) (msgs : Nat → String) :
    (generateForecast
        { indicator := "co2", region := "Germany", timeRange := "5y", mode := "bigquery" }
        now nowMs rh rd racc rI retries retryDelay
        { queryCache := memp, retryCount := memp }
        (fun j => Except.error (msgs j))).1 =
      Except.ok (generateDemoForecast
        { indicator := "co2", region := "Germany", timeRange := "5y", mode := "bigquery" }
        now rd racc) ∧
    (generateDemoForecast
        { indicator := "co2", region := "Germany", timeRange := "5y", mode := "bigquery" }
        now rd racc).forecast.length = 60 ∧
    List.Chain' (fun a b => b = a + 1)
      ((generateDemoForecast
        { indicator := "co2", region := "Germany", timeRange := "5y", mode := "bigquery" }
        now rd racc).forecast.map ForecastPoint.ts) := by
  refine ⟨?_, ?_, ?_⟩
  · exact generateForecast_fallback _ (by decide) now nowMs rh rd racc rI
      retries retryDelay memp msgs
  · simp [generateDemoForecast, getTimeHorizon]
  · simp only [generateDemoForecast, List.map_map]
    exact chain'_range_map _ _ (fun i hi => by
      simp only [Function.comp]
      omega)

/-- C9 counterexample: subscribing the *same* callback twice to one topic
puts two occurrences in the listener list; the unsubscribe closure removes
one occurrence per invocation, so invoking it a second time is *not* a
no-op — it removes the remaining occurrence, stops the timer and deletes
the topic state.  Concretely, for callback `7` subscribed twice to
`co2-Germany`, after one invocation the topic still delivers to `[7]` with
an active timer, and the second invocation empties the topic and cancels
the timer. -/
theorem C9_counterexample :
    deliveredCallbacks
        (unsubscribeRT (subscribeRT (subscribeRT rtInitial "co2" "Germany" 7)
          "co2" "Germany" 7) (topicKey "co2" "Germany") 7)
        (topicKey "co2" "Germany") = [7] ∧
    ((unsubscribeRT (subscribeRT (subscribeRT rtInitial "co2" "Germany" 7)
          "co2" "Germany" 7) (topicKey "co2" "Germany") 7).pollingIntervals
        (topicKey "co2" "Germany")).isSome = true ∧
    deliveredCallbacks
        (unsubscribeRT (unsubscribeRT (subscribeRT (subscribeRT rtInitial "co2" "Germany" 7)
          "co2" "Germany" 7) (topicKey "co2" "Germany") 7) (topicKey "co2" "Germany") 7)
        (topicKey "co2" "Germany") = [] ∧
    ((unsubscribeRT (unsubscribeRT (subscribeRT (subscribeRT rtInitial "co2" "Germany" 7)
          "co2" "Germany" 7) (topicKey "co2" "Germany") 7) (topicKey "co2" "Germany") 7).pollingIntervals
        (topicKey "co2" "Germany")).isSome = false := by
  refine ⟨?_, ?_, ?_, ?_⟩ <;> decide

/-- C9 (amended): removing a listener that is not present in the topic's
callback list (in particular, a second invocation of the unsubscribe
closure once its listener is no longer present — the case where that
listener had been subscribed exactly once) leaves the whole service state
unchanged; but if the same listener is still present (e.g. it was
subscribed twice), a repeated invocation removes a further occurrence, as
the counterexample shows. -/
theorem C9_amended_removal_noop (s : RTState) (key : String) (cb : Nat)
    (h : ∀ l, s.subscribers key = some l → cb ∉ l) :
    unsubscribeRT s key cb = s := by
  unfold unsubscribeRT
  cases hl : s.subscribers key with
  | none => rfl
  | some l => simp [h l hl]

/-- C9 witness: removing a listener from a fresh service (where it is not
present) is a no-op. -/
theorem C9_witness :
    (∀ l, rtInitial.subscribers "co2-Germany" = some l → 3 ∉ l) ∧
    unsubscribeRT rtInitial "co2-Germany" 3 = rtInitial :=
  ⟨fun l hl => by simp [rtInitial, memp] at hl,
   C9_amended_removal_noop rtInitial "co2-Germany" 3
     (fun l hl => by simp [rtInitial, memp] at hl)⟩

/-- The timer-listener invariant of `RealTimeService`: a topic's polling
timer exists iff the topic has a subscriber entry, and every stored
listener list is nonempty (so: a timer exists iff at least one listener
does). -/
def RTInv (s : RTState) : Prop :=
  ∀ key, ((s.pollingIntervals key).isSome ↔ (s.subscribers key).isSome) ∧
    (∀ l, s.subscribers key = some l → l ≠ [])

/-- Subscribing to a topic that already has a listener list only appends
the callback: timers and the fetch log are untouched. -/
theorem subscribe_existing (s : RTState) (ind reg : String) (cb : Nat)
    (l : List Nat) (hl : s.subscribers (topicKey ind reg) = some l) :
    (subscribeRT s ind reg cb).subscribers =
      mset s.subscribers (topicKey ind reg) (l ++ [cb]) ∧
    (subscribeRT s ind reg cb).pollingIntervals = s.pollingIntervals ∧
    (subscribeRT s ind reg cb).fetchLog = s.fetchLog := by
  refine ⟨?_, ?_, ?_⟩ <;> simp [subscribeRT, hl]

/-- Subscribing to a topic with no listeners and no timer creates the
singleton listener list, installs a timer, and issues exactly one
immediate fetch for the topic. -/
theorem subscribe_fresh (s : RTState) (ind reg : String) (cb : Nat)
    (hnone : s.subscribers (topicKey ind reg) = none)
    (htimer : s.pollingIntervals (topicKey ind reg) = none) :
    (subscribeRT s ind reg cb).subscribers =
      mset (mset s.subscribers (topicKey ind reg) []) (topicKey ind reg) [cb] ∧
    (subscribeRT s ind reg cb).pollingIntervals =
      mset s.pollingIntervals (topicKey ind reg) s.nextTimerId ∧
    (subscribeRT s ind reg cb).fetchLog = s.fetchLog ++ [topicKey ind reg] := by
  refine ⟨?_, ?_, ?_⟩ <;>
    simp [subscribeRT, startPolling, stopPolling, hnone, htimer, mset_self]

/-- Removing a listener that is present, leaving other listeners behind,
only updates the listener list. -/
theorem unsubscribe_remaining (s : RTState) (key : String) (cb : Nat)
    (l : List Nat) (hl : s.subscribers key = some l) (hmem : cb ∈ l)
    (hne : eraseFirst l cb ≠ []) :
    (unsubscribeRT s key cb).subscribers = mset s.subscribers key (eraseFirst l cb) ∧
    (unsubscribeRT s key cb).pollingIntervals = s.pollingIntervals ∧
    (unsubscribeRT s key cb).fetchLog = s.fetchLog := by
  refine ⟨?_, ?_, ?_⟩ <;> simp [unsubscribeRT, hl, hmem, hne]

/-- Removing the last listener deletes the topic's subscriber entry and
cancels its timer, touching no other topic's timer. -/
theorem unsubscribe_last (s : RTState) (key : String) (cb : Nat)
    (l : List Nat) (hl : s.subscribers key = some l) (hmem : cb ∈ l)
    (hemp : eraseFirst l cb = []) :
    (unsubscribeRT s key cb).subscribers = mdel s.subscribers key ∧
    (unsubscribeRT s key cb).pollingIntervals key = none ∧
    (∀ x, x ≠ key → (unsubscribeRT s key cb).pollingIntervals x =
      s.pollingIntervals x) ∧
    (unsubscribeRT s key cb).fetchLog = s.fetchLog := by
  refine ⟨?_, ?_, ?_, ?_⟩
  · simp only [unsubscribeRT, hl, if_pos hmem, hemp, if_pos rfl, stopPolling]
    cases hp : s.pollingIntervals key <;> simp [hp]
  · simp only [unsubscribeRT, hl, if_pos hmem, hemp, if_pos rfl, stopPolling]
    cases hp : s.pollingIntervals key <;> simp [hp, mdel_self]
  · intro x hx
    simp only [unsubscribeRT, hl, if_pos hmem, hemp, if_pos rfl, stopPolling]
    cases hp : s.pollingIntervals key <;> simp [hp, mdel, hx]
  · simp only [unsubscribeRT, hl, if_pos hmem, hemp, if_pos rfl, stopPolling]
    cases hp : s.pollingIntervals key <;> simp [hp]

/-- Removing a listener that is not in the topic's list (or from a topic
with no list) changes nothing. -/
theorem unsubscribe_noop (s : RTState) (key : String) (cb : Nat)
    (h : ∀ l, s.subscribers key = some l → cb ∉ l) :
    unsubscribeRT s key cb = s := by
  unfold unsubscribeRT
  cases hl : s.subscribers key with
  | none => rfl
  | some l => simp [h l hl]

/-- The embedding step never touches the similarity-results cache. -/
theorem generateEmbedding_resultsCache (s : VSState) (a b c : String) :
    (generateEmbedding s a b c).2.resultsCache = s.resultsCache := by
  simp only [generateEmbedding]
  split <;> rfl

/-- A results-cache hit returns the cached array with the state unchanged. -/
theorem findSimilar_hit (s : VSState) (targetRegion indicator timeRange : String)
    (rv re : Nat → ℚ) (rs : List SimilarityResult)
    (hrs : s.resultsCache (targetRegion ++ "-" ++ indicator ++ "-" ++ timeRange) = some rs) :
    findSimilarRegions s targetRegion indicator timeRange rv re = (rs, s) := by
  simp only [findSimilarRegions]
  rw [hrs]

/-- After any `findSimilarRegions` call, the returned array is the cached
entry under the call's key. -/
theorem findSimilar_result_cached (s : VSState)
    (targetRegion indicator timeRange : String) (rv re : Nat → ℚ) :
    (findSimilarRegions s targetRegion indicator timeRange rv re).2.resultsCache
        (targetRegion ++ "-" ++ indicator ++ "-" ++ timeRange) =
      some (findSimilarRegions s targetRegion indicator timeRange rv re).1 := by
  simp only [findSimilarRegions]
  cases hrs : s.resultsCache (targetRegion ++ "-" ++ indicator ++ "-" ++ timeRange) with
  | some cached => simpa using hrs
  | none => simp [mset_self]

/-- A `findSimilarRegions` call only ever writes its own key. -/
theorem findSimilar_other_key (s : VSState) (reg ind tr : String)
    (rv re : Nat → ℚ) (key : String)
    (hne : reg ++ "-" ++ ind ++ "-" ++ tr ≠ key) :
    (findSimilarRegions s reg ind tr rv re).2.resultsCache key =
      s.resultsCache key := by
  simp only [findSimilarRegions]
  cases hrs : s.resultsCache (reg ++ "-" ++ ind ++ "-" ++ tr) with
  | some cached => rfl
  | none =>
    show mset (generateEmbedding s reg ind tr).2.resultsCache _ _ key = _
    rw [mset_other _ _ _ _ (fun hk => hne hk.symm), generateEmbedding_resultsCache]

/-- C10: the similarity-results cache of `findSimilarRegions` is consulted
before any embedding or search work (a hit returns the cached array with
the state unchanged); a completed call leaves its result cached under its
key; every later call with the same three arguments (whatever its random
draws) returns that identical cached array and leaves the state unchanged;
calls with a different key do not disturb the entry; and `clearCache`
empties it.  There is no time parameter anywhere — entries never expire. -/
theorem C10_similarity_cache (s : VSState)
    (targetRegion indicator timeRange : String) (rv re : Nat → ℚ) :
    (∀ rs, s.resultsCache (targetRegion ++ "-" ++ indicator ++ "-" ++ timeRange) = some rs →
      findSimilarRegions s targetRegion indicator timeRange rv re = (rs, s)) ∧
    ((findSimilarRegions s targetRegion indicator timeRange rv re).2.resultsCache
        (targetRegion ++ "-" ++ indicator ++ "-" ++ timeRange) =
      some (findSimilarRegions s targetRegion indicator timeRange rv re).1) ∧
    (∀ rv2 re2 : Nat → ℚ,
      findSimilarRegions (findSimilarRegions s targetRegion indicator timeRange rv re).2
          targetRegion indicator timeRange rv2 re2 =
        ((findSimilarRegions s targetRegion indicator timeRange rv re).1,
          (findSimilarRegions s targetRegion indicator timeRange rv re).2)) ∧
    (∀ reg2 ind2 tr2 : String, ∀ rv2 re2 : Nat → ℚ,
      reg2 ++ "-" ++ ind2 ++ "-" ++ tr2 ≠ targetRegion ++ "-" ++ indicator ++ "-" ++ timeRange →
      (findSimilarRegions s reg2 ind2 tr2 rv2 re2).2.resultsCache
          (targetRegion ++ "-" ++ indicator ++ "-" ++ timeRange) =
        s.resultsCache (targetRegion ++ "-" ++ indicator ++ "-" ++ timeRange)) ∧
    (clearCacheVS s).resultsCache (targetRegion ++ "-" ++ indicator ++ "-" ++ timeRange) = none := by
  refine ⟨fun rs hrs => findSimilar_hit s targetRegion indicator timeRange rv re rs hrs,
    findSimilar_result_cached s targetRegion indicator timeRange rv re, ?_, ?_, ?_⟩
  · intro rv2 re2
    rw [findSimilar_hit _ targetRegion indicator timeRange rv2 re2 _
      (findSimilar_result_cached s targetRegion indicator timeRange rv re)]
  · intro reg2 ind2 tr2 rv2 re2 hne
    exact findSimilar_other_key s reg2 ind2 tr2 rv2 re2 _ hne
  · simp [clearCacheVS, memp]

/-- C10 witness: on a fresh service, a completed `findSimilarRegions` call
leaves its result cached under its key. -/
theorem C10_witness :
    (findSimilarRegions vsInitial "Germany" "co2" "10y"
        (fun _ => 1/2) (fun _ => 1/2)).2.resultsCache
        ("Germany" ++ "-" ++ "co2" ++ "-" ++ "10y") =
      some (findSimilarRegions vsInitial "Germany" "co2" "10y"
        (fun _ => 1/2) (fun _ => 1/2)).1 :=
  (C10_similarity_cache vsInitial "Germany" "co2" "10y"
    (fun _ => 1/2) (fun _ => 1/2)).2.1

/-- Under the timer-listener invariant, a topic with no subscriber entry
has no timer. -/
theorem timer_none_of_no_subscribers (s : RTState) (key : String)
    (hInv : RTInv s) (hl : s.subscribers key = none) :
    s.pollingIntervals key = none := by
  have h2 := (hInv key).1
  rw [hl] at h2
  simp only [Option.isSome_none, Bool.false_eq_true, iff_false] at h2
  exact Option.not_isSome_iff_eq_none.mp h2

/-- C7: for every topic, a polling timer exists iff at least one
subscribed listener exists (and this invariant is preserved by
`subscribe` and by the unsubscribe closure); the first subscribe for a
topic installs a timer, performs exactly one immediate out-of-band fetch
and delivers to the new listener; a further subscribe appends the listener
without touching timers or issuing an immediate fetch; removing one of
several listeners leaves every timer in place and delivery continuing to
the remaining listeners; and removing the last listener cancels the
topic's timer and deletes its subscriber state, so no callback is ever
invoked for the topic again. -/
theorem C7_subscription_lifecycle (s : RTState) (ind reg : String)
    (cb : Nat) (key0 : String) (hInv : RTInv s) :
    ((s.pollingIntervals (topicKey ind reg)).isSome ↔
      ∃ l, s.subscribers (topicKey ind reg) = some l ∧ l ≠ []) ∧
    RTInv (subscribeRT s ind reg cb) ∧
    RTInv (unsubscribeRT s key0 cb) ∧
    (s.subscribers (topicKey ind reg) = none →
      ((subscribeRT s ind reg cb).pollingIntervals (topicKey ind reg)).isSome = true ∧
      (subscribeRT s ind reg cb).fetchLog = s.fetchLog ++ [topicKey ind reg] ∧
      deliveredCallbacks (subscribeRT s ind reg cb) (topicKey ind reg) = [cb]) ∧
    (∀ l, s.subscribers (topicKey ind reg) = some l →
      (subscribeRT s ind reg cb).fetchLog = s.fetchLog ∧
      (subscribeRT s ind reg cb).pollingIntervals = s.pollingIntervals ∧
      deliveredCallbacks (subscribeRT s ind reg cb) (topicKey ind reg) = l ++ [cb]) ∧
    (∀ l, s.subscribers key0 = some l → cb ∈ l → eraseFirst l cb ≠ [] →
      (unsubscribeRT s key0 cb).pollingIntervals = s.pollingIntervals ∧
      deliveredCallbacks (unsubscribeRT s key0 cb) key0 = eraseFirst l cb) ∧
    (∀ l, s.subscribers key0 = some l → cb ∈ l → eraseFirst l cb = [] →
      (unsubscribeRT s key0 cb).pollingIntervals key0 = none ∧
      (unsubscribeRT s key0 cb).subscribers key0 = none ∧
      deliveredCallbacks (unsubscribeRT s key0 cb) key0 = []) := by
  have hiff : ∀ key, ((s.pollingIntervals key).isSome ↔ (s.subscribers key).isSome) :=
    fun key => (hInv key).1
  have hnonemp : ∀ key l, s.subscribers key = some l → l ≠ [] :=
    fun key => (hInv key).2
  refine ⟨?_, ?_, ?_, ?_, ?_, ?_, ?_⟩
  · constructor
    · intro ht
      obtain ⟨l, hl⟩ := Option.isSome_iff_exists.mp ((hiff _).mp ht)
      exact ⟨l, hl, hnonemp _ l hl⟩
    · rintro ⟨l, hl, -⟩
      exact (hiff _).mpr (by simp [hl])
  · intro x
    cases hl : s.subscribers (topicKey ind reg) with
    | some l =>
      obtain ⟨hsub, hpoll, -⟩ := subscribe_existing s ind reg cb l hl
      by_cases hx : x = topicKey ind reg
      · subst hx
        refine ⟨?_, ?_⟩
        · rw [hpoll, hsub, mset_self]
          simp only [Option.isSome_some, iff_true]
          exact (hiff _).mpr (by simp [hl])
        · intro l' hl'
          rw [hsub, mset_self] at hl'
          cases hl'
          simp
      · refine ⟨?_, ?_⟩
        · rw [hpoll, hsub, mset_other _ _ _ _ hx]
          exact hiff x
        · intro l' hl'
          rw [hsub, mset_other _ _ _ _ hx] at hl'
          exact hnonemp x l' hl'
    | none =>
      have htimer := timer_none_of_no_subscribers s (topicKey ind reg) hInv hl
      obtain ⟨hsub, hpoll, -⟩ := subscribe_fresh s ind reg cb hl htimer
      by_cases hx : x = topicKey ind reg
      · subst hx
        refine ⟨?_, ?_⟩
        · rw [hpoll, hsub, mset_self, mset_self]
          simp
        · intro l' hl'
          rw [hsub, mset_self] at hl'
          cases hl'
          simp
      · refine ⟨?_, ?_⟩
        · rw [hpoll, hsub, mset_other _ _ _ _ hx, mset_other _ _ _ _ hx,
            mset_other _ _ _ _ hx]
          exact hiff x
        · intro l' hl'
          rw [hsub, mset_other _ _ _ _ hx, mset_other _ _ _ _ hx] at hl'
          exact hnonemp x l' hl'
  · intro x
    cases hl : s.subscribers key0 with
    | none =>
      rw [unsubscribe_noop s key0 cb (fun l hl' => by rw [hl] at hl'; cases hl')]
      exact hInv x
    | some l =>
      by_cases hmem : cb ∈ l
      · by_cases hemp : eraseFirst l cb = []
        · obtain ⟨hsub, hpk, hpo, -⟩ := unsubscribe_last s key0 cb l hl hmem hemp
          by_cases hx : x = key0
          · subst hx
            refine ⟨?_, ?_⟩
            · rw [hpk, hsub, mdel_self]
              simp
            · intro l' hl'
              rw [hsub, mdel_self] at hl'
              cases hl'
          · refine ⟨?_, ?_⟩
            · rw [hpo x hx, hsub, mdel_other _ _ _ hx]
              exact hiff x
            · intro l' hl'
              rw [hsub, mdel_other _ _ _ hx] at hl'
              exact hnonemp x l' hl'
        · obtain ⟨hsub, hpoll, -⟩ := unsubscribe_remaining s key0 cb l hl hmem hemp
          by_cases hx : x = key0
          · subst hx
            refine ⟨?_, ?_⟩
            · rw [hpoll, hsub, mset_self]
              simp only [Option.isSome_some, iff_true]
              exact (hiff _).mpr (by simp [hl])
            · intro l' hl'
              rw [hsub, mset_self] at hl'
              cases hl'
              exact hemp
          · refine ⟨?_, ?_⟩
            · rw [hpoll, hsub, mset_other _ _ _ _ hx]
              exact hiff x
            · intro l' hl'
              rw [hsub, mset_other _ _ _ _ hx] at hl'
              exact hnonemp x l' hl'
      · rw [unsubscribe_noop s key0 cb
          (fun l' hl' => by rw [hl] at hl'; cases hl'; exact hmem)]
        exact hInv x
  · intro hl
    have htimer := timer_none_of_no_subscribers s (topicKey ind reg) hInv hl
    obtain ⟨hsub, hpoll, hlog⟩ := subscribe_fresh s ind reg cb hl htimer
    refine ⟨?_, hlog, ?_⟩
    · rw [hpoll, mset_self]
      rfl
    · unfold deliveredCallbacks
      rw [hsub, mset_self]
      rfl
  · intro l hl
    obtain ⟨hsub, hpoll, hlog⟩ := subscribe_existing s ind reg cb l hl
    refine ⟨hlog, hpoll, ?_⟩
    unfold deliveredCallbacks
    rw [hsub, mset_self]
    rfl
  · intro l hl hmem hne
    obtain ⟨hsub, hpoll, -⟩ := unsubscribe_remaining s key0 cb l hl hmem hne
    refine ⟨hpoll, ?_⟩
    unfold deliveredCallbacks
    rw [hsub, mset_self]
    rfl
  · intro l hl hmem hemp
    obtain ⟨hsub, hpk, -, -⟩ := unsubscribe_last s key0 cb l hl hmem hemp
    refine ⟨hpk, ?_, ?_⟩
    · rw [hsub, mdel_self]
    · unfold deliveredCallbacks
      rw [hsub, mdel_self]
      rfl

/-- C7 witness: the invariant holds for a fresh service, and hence is
preserved by its first subscription. -/
theorem C7_witness :
    RTInv rtInitial ∧ RTInv (subscribeRT rtInitial "co2" "Germany" 1) := by
  have h0 : RTInv rtInitial := by
    intro key
    simp [rtInitial, memp]
  exact ⟨h0, (C7_subscription_lifecycle rtInitial "co2" "Germany" 1
    (topicKey "co2" "Germany") h0).2.1⟩

end ClimateCore
